import Mathlib

/-!
Verification development for the owui-mariposa-filter repository
(`mariposa_filter.py`, Adapter A, and `mariposa_pipe.py`, Adapter B).

Python strings are modelled as `List Char`, JSON values returned by the
Mariposa service as the inductive `JVal`, and the outcome of one HTTP round
trip as `HttpOutcome`.  Python code that can raise is embedded in
`Except PyErr`; the adapters' `try/except` blocks catch and convert as in
the source.  `.lower()` is modelled on ASCII letters and `\\d` on ASCII
digits, which covers all inputs considered here.
-/

abbrev Str := List Char

def chars (s : String) : Str := s.data

/-- Python `str.strip()` whitespace set (ASCII part). -/
def isPySpace (c : Char) : Bool :=
  c = ' ' || c = '\t' || c = '\n' || c = '\r' || c = '\x0b' || c = '\x0c'

def asciiLower (c : Char) : Char :=
  if 'A' ≤ c ∧ c ≤ 'Z' then Char.ofNat (c.toNat + 32) else c

/-- Python `str.lower()` (ASCII). -/
def pyLower (s : Str) : Str := s.map asciiLower

/-- Python `str.strip()`. -/
def pyStrip (s : Str) : Str :=
  ((s.dropWhile isPySpace).reverse.dropWhile isPySpace).reverse

/-- Substring test, used for Python `needle in haystack` on strings. -/
def strContains (hay need : Str) : Bool :=
  hay.tails.any (fun t => need.isPrefixOf t)

/-- Python `sep.join` on strings already known to be strings. -/
def joinSep (sep : Str) : List Str → Str
  | [] => []
  | [x] => x
  | x :: y :: rest => x ++ sep ++ joinSep sep (y :: rest)

/-- The ASCII apostrophe, kept out of string literals. -/
def apos : Char := Char.ofNat 39

/-- Opening curly brace character. -/
def obr : Char := Char.ofNat 123

/-- Closing curly brace character. -/
def cbr : Char := Char.ofNat 125

/-- Backtick character. -/
def btick : Char := Char.ofNat 96

/-- Host-platform message values: the adapters only distinguish strings from
everything else (`isinstance(last_msg, str)` / `.strip()` availability).
Non-string payloads carry an opaque tag so distinct ones stay distinct. -/
inductive Pval where
  | pstr (s : Str)
  | pother (tag : Nat)
deriving DecidableEq, Repr

/-- JSON values as returned by `requests.Response.json()`. -/
inductive JVal where
  | jnull
  | jbool (b : Bool)
  | jnum (n : Int)
  | jstr (s : Str)
  | jarr (elems : List JVal)
  | jobj (fields : List (Str × JVal))

/-- Python exception kinds relevant to this code. -/
inductive PyErr where
  | attrError
  | typeError
  | keyError
deriving DecidableEq, Repr

/-- First-match key lookup in a JSON object (Python dicts have unique keys). -/
def jLookup (kvs : List (Str × JVal)) (k : Str) : Option JVal :=
  match kvs with
  | [] => none
  | (k2, v) :: rest => if k2 = k then some v else jLookup rest k

/-- Python truthiness of a JSON value. -/
def JVal.truthy : JVal → Bool
  | .jnull => false
  | .jbool b => b
  | .jnum n => n != 0
  | .jstr s => !s.isEmpty
  | .jarr xs => !xs.isEmpty
  | .jobj kvs => !kvs.isEmpty

/-- Python `v.get(k, d)`: `AttributeError` unless `v` is a dict. -/
def jGetD (v : JVal) (k : Str) (d : JVal) : Except PyErr JVal :=
  match v with
  | .jobj kvs => .ok ((jLookup kvs k).getD d)
  | _ => .error .attrError

/-- Python `v.get(k)` (default `None`). -/
def jGet (v : JVal) (k : Str) : Except PyErr JVal := jGetD v k .jnull

/-- Python `k in v` for a string key `k`. -/
def pyIn (k : Str) (v : JVal) : Except PyErr Bool :=
  match v with
  | .jobj kvs => .ok (jLookup kvs k).isSome
  | .jarr xs =>
    .ok (xs.any (fun x => match x with | .jstr s => s = k | _ => false))
  | .jstr s => .ok (strContains s k)
  | _ => .error .typeError

/-- Python `v[k]` for a string key `k`. -/
def jIndex (v : JVal) (k : Str) : Except PyErr JVal :=
  match v with
  | .jobj kvs =>
    match jLookup kvs k with
    | some x => .ok x
    | none => .error .keyError
  | _ => .error .typeError

/-- Python iteration `for e in v`. -/
def pyIter (v : JVal) : Except PyErr (List JVal) :=
  match v with
  | .jarr xs => .ok xs
  | .jstr s => .ok (s.map (fun c => .jstr [c]))
  | .jobj kvs => .ok (kvs.map (fun kv => JVal.jstr kv.1))
  | _ => .error .typeError

/-- Python `len(v)`. -/
def pyLen (v : JVal) : Except PyErr Nat :=
  match v with
  | .jarr xs => .ok xs.length
  | .jstr s => .ok s.length
  | .jobj kvs => .ok kvs.length
  | _ => .error .typeError

/-- Fueled Python `repr` of a JSON value (containers only show up in
f-string interpolation, which no claim inspects in detail). -/
def pyReprF : Nat → JVal → Str
  | 0, _ => []
  | _ + 1, .jnull => chars "None"
  | _ + 1, .jbool b => if b then chars "True" else chars "False"
  | _ + 1, .jnum n => chars n.repr
  | _ + 1, .jstr s => apos :: s ++ [apos]
  | n + 1, .jarr xs =>
    '[' :: joinSep (chars ", ") (xs.map (pyReprF n)) ++ [']']
  | n + 1, .jobj kvs =>
    obr :: joinSep (chars ", ")
      (kvs.map (fun kv => pyReprF n (.jstr kv.1) ++ chars ": " ++ pyReprF n kv.2))
      ++ [cbr]

mutual
/-- Nesting depth of a JSON value, fuel for `pyReprF`. -/
def jdepth : JVal → Nat
  | .jarr xs => jdepthList xs + 1
  | .jobj kvs => jdepthKV kvs + 1
  | _ => 1

def jdepthList : List JVal → Nat
  | [] => 0
  | x :: xs => max (jdepth x) (jdepthList xs)

def jdepthKV : List (Str × JVal) → Nat
  | [] => 0
  | kv :: kvs => max (jdepth kv.2) (jdepthKV kvs)
end

/-- Python `str(v)` as used by f-string interpolation. -/
def pyStr (v : JVal) : Str :=
  match v with
  | .jstr s => s
  | .jnull => chars "None"
  | .jbool b => if b then chars "True" else chars "False"
  | .jnum n => chars n.repr
  | w => pyReprF (jdepth w) w

/-- Python `sep.join(xs)`: `TypeError` unless every element is a string. -/
def pyJoinVals (sep : Str) : List JVal → Except PyErr Str
  | [] => .ok []
  | [.jstr s] => .ok s
  | .jstr s :: x :: rest => do
    let r ← pyJoinVals sep (x :: rest)
    .ok (s ++ sep ++ r)
  | _ => .error .typeError

/-- Monadic map for `Except`, used for Python list-building loops. -/
def eMapM (f : α → Except PyErr β) : List α → Except PyErr (List β)
  | [] => .ok []
  | x :: xs => do
    let y ← f x
    let ys ← eMapM f xs
    .ok (y :: ys)

/- ### HTTP service model -/

/-- Outcome of parsing one response body. -/
inductive JsonBody where
  | badJson (errMsg : Str)
  | parsed (v : JVal)

/-- Outcome of one HTTP round trip: transport exception or a response. -/
inductive HttpOutcome where
  | exc (errMsg : Str)
  | resp (status : Nat) (body : JsonBody)

/-- The external Mariposa service, as an oracle keyed by full URL. -/
structure Svc where
  get : Str → HttpOutcome
  del : Str → HttpOutcome

/-- Semantics of `requests.Response.raise_for_status`: it raises `HTTPError`
exactly for 4xx and 5xx status codes (`some msg` = raised). -/
def raiseForStatus (status : Nat) : Option Str :=
  if 400 ≤ status ∧ status < 500 then
    some (chars status.repr ++ chars " Client Error")
  else if 500 ≤ status ∧ status < 600 then
    some (chars status.repr ++ chars " Server Error")
  else none

/-- Query-string construction shared by both `fetch_notes` variants:
`"?" + "&".join(f"{k}={v}" ...)` over truthy values, empty for no params. -/
def buildQuery (params : List (Str × Str)) : Str :=
  match params with
  | [] => []
  | _ =>
    '?' :: joinSep ['&']
      ((params.filter (fun kv => !kv.2.isEmpty)).map
        (fun kv => kv.1 ++ ['='] ++ kv.2))

/- ### Chat-turn payloads -/

/-- One chat message: the `content` field (absent allowed) plus all other
fields the adapters never touch. -/
structure Msg where
  content : Option Pval
  extra : List (Str × Pval)
deriving DecidableEq, Repr

/-- The chat-turn body: the ordered message list plus all other fields. -/
structure ChatBody where
  messages : List Msg
  extra : List (Str × Pval)
deriving DecidableEq, Repr

/-- In-place update `messages[-1]["content"] = s`. -/
def setLastContent (ms : List Msg) (s : Str) : List Msg :=
  match ms with
  | [] => []
  | _ :: _ => ms.dropLast ++ [{ ms.getLastD ⟨none, []⟩ with content := some (.pstr s) }]

/-- The last message carries a string (or absent, defaulted to `""`)
`content`: the precondition for `.strip()` not to raise in the pipe. -/
def lastContentIsStr (body : ChatBody) : Bool :=
  match (body.messages.getLastD ⟨none, []⟩).content.getD (.pstr []) with
  | .pstr _ => true
  | .pother _ => false

/-- Substring containment, for the placeholder-rendering claims. -/
def containsStr (hay need : Str) : Prop := ∃ l r, hay = l ++ need ++ r

/- ### Adapter A: mariposa_filter.py -/

/-- Configuration valves of the filter adapter. -/
structure FilterValves where
  mariposa_url : Str
  enable_auto_fetch : Bool
  enable_slash_commands : Bool
deriving DecidableEq

def filterDefaults : FilterValves :=
  ⟨chars "http://host.docker.internal:3020", true, true⟩

namespace Filter

/-- `api_get`: `try: requests.get(...); raise_for_status; return r.json()
except Exception: return None`. -/
def api_get (v : FilterValves) (svc : Svc) (endp : Str) : Option JVal :=
  match svc.get (v.mariposa_url ++ endp) with
  | .exc _ => none
  | .resp st body =>
    match raiseForStatus st with
    | some _ => none
    | none =>
      match body with
      | .badJson _ => none
      | .parsed j => some j

/-- `api_delete`: true exactly when the service answered status 204;
any exception yields false. -/
def api_delete (v : FilterValves) (svc : Svc) (endp : Str) : Bool :=
  match svc.del (v.mariposa_url ++ endp) with
  | .exc _ => false
  | .resp st _ => st = 204

def fetch_note (v : FilterValves) (svc : Svc) (slug : Str) : Option JVal :=
  api_get v svc (chars "/api/notes/" ++ slug)

/-- `fetch_notes`: `data.get("notes", []) if data else []`; the `.get` can
raise `AttributeError` when the parsed body is truthy but not an object. -/
def fetch_notesE (v : FilterValves) (svc : Svc) (params : List (Str × Str)) :
    Except PyErr JVal :=
  match api_get v svc (chars "/api/notes" ++ buildQuery params) with
  | none => .ok (.jarr [])
  | some d => if d.truthy then jGetD d (chars "notes") (.jarr []) else .ok (.jarr [])

def fetch_categoriesE (v : FilterValves) (svc : Svc) : Except PyErr JVal :=
  match api_get v svc (chars "/api/categories") with
  | none => .ok (.jarr [])
  | some d =>
    if d.truthy then jGetD d (chars "categories") (.jarr []) else .ok (.jarr [])

def fetch_tagsE (v : FilterValves) (svc : Svc) : Except PyErr JVal :=
  match api_get v svc (chars "/api/tags") with
  | none => .ok (.jarr [])
  | some d => if d.truthy then jGetD d (chars "tags") (.jarr []) else .ok (.jarr [])

/-- Tag rendering shared by both `render_note_md` modes:
`", ".join(f"`{t}`" for t in tags) if tags else "_no tags_"`. -/
def mdTagsStr (tags : JVal) : Except PyErr Str :=
  if tags.truthy then do
    let ts ← pyIter tags
    .ok (joinSep (chars ", ") (ts.map (fun t => chars "`" ++ pyStr t ++ chars "`")))
  else .ok (chars "_no tags_")

/-- `render_note_md` with its `compact` flag. -/
def render_note_md (note : JVal) (compact : Bool) : Except PyErr Str := do
  let title ← jGetD note (chars "title") (.jstr (chars "Untitled"))
  let slug ← jGetD note (chars "slug") (.jstr [])
  let category ← jGetD note (chars "category") (.jstr (chars "uncategorized"))
  let tags ← jGetD note (chars "tags") (.jarr [])
  let content ← jGetD note (chars "content") (.jstr [])
  let updated ← jGetD note (chars "updatedAt") (.jstr [])
  let tagsStr ← mdTagsStr tags
  if compact then do
    let n ← pyLen tags
    .ok (chars "**" ++ pyStr title ++ chars "** (" ++ pyStr slug ++ chars ") — _"
      ++ pyStr category ++ chars "_ · " ++ chars n.repr ++ chars " tags")
  else
    .ok (chars "### " ++ pyStr title ++ chars "\n\n**Category:** " ++ pyStr category
      ++ chars " | **Tags:** " ++ tagsStr ++ chars "  \n**Slug:** `" ++ pyStr slug
      ++ chars "` | **Updated:** " ++ pyStr updated ++ chars "\n\n---\n\n"
      ++ (if content.truthy then pyStr content else chars "_No content_")
      ++ chars "\n\n---\n\n**Actions:** `read " ++ pyStr slug ++ chars "` · `edit "
      ++ pyStr slug ++ chars "` · `delete " ++ pyStr slug ++ chars "`\n")

/-- One bullet line of `render_notes_list_md`. -/
def noteLineMd (nt : JVal) : Except PyErr Str := do
  let title ← jGetD nt (chars "title") (.jstr (chars "Untitled"))
  let slug ← jGetD nt (chars "slug") (.jstr [])
  let category ← jGetD nt (chars "category") (.jstr [])
  let tags ← jGetD nt (chars "tags") (.jarr [])
  let tagsStr ←
    if tags.truthy then do
      let tl ← pyIter tags
      let tj ← pyJoinVals (chars ", ") tl
      .ok ('[' :: tj ++ [']'])
    else .ok ([] : Str)
  .ok (chars "- **" ++ pyStr title ++ chars "** `" ++ pyStr slug ++ chars "` — _"
    ++ pyStr category ++ chars "_ " ++ tagsStr)

def render_notes_list_md (notes : JVal) : Except PyErr Str :=
  if ¬ notes.truthy then
    .ok (chars "⚠️ **No notes found.** Use `/new` to create one.")
  else do
    let n ← pyLen notes
    let xs ← pyIter notes
    let lines ← eMapM noteLineMd xs
    .ok (joinSep (chars "\n")
      ((chars "### Your Notes (" ++ chars n.repr ++ chars " total)\n") :: lines
        ++ [chars "\n_Say `read <slug>` to view a note._"]))

def render_error_md (title msg : Str) : Str :=
  chars "⚠️ **" ++ title ++ chars "**\n\n" ++ msg

def render_creation_formE (v : FilterValves) (svc : Svc) : Except PyErr Str := do
  let categories ← fetch_categoriesE v svc
  let tags ← fetch_tagsE v svc
  let catsStr ←
    if categories.truthy then do
      let cs ← pyIter categories
      .ok (joinSep (chars ", ") (cs.map (fun c => chars "`" ++ pyStr c ++ chars "`")))
    else .ok (chars "`uncategorized`")
  let tagsStr ←
    if tags.truthy then do
      let ts ← pyIter tags
      .ok (joinSep (chars ", ") (ts.map (fun t => chars "`" ++ pyStr t ++ chars "`")))
    else .ok (chars "_none yet_")
  .ok (chars "I\x27d like to create a new note. Please help me fill in:\n\n📝 **Title:** [required]  \n📁 **Category:** "
    ++ catsStr ++ chars "  \n🏷️ **Tags:** " ++ tagsStr
    ++ chars "  \n📄 **Content:** [what should the note contain?]\n\n_Guide me through each field one at a time._")

end Filter

/- ### Command matching (Adapter A) -/

/-- Match `note-<digits>` at the head of `s` (`ci` = case-insensitive, as
under `re.IGNORECASE`); returns the matched text and the rest. Digits are
greedy, as for `\d+`. -/
def matchSlugAt (ci : Bool) (s : Str) : Option (Str × Str) :=
  match s with
  | c1 :: c2 :: c3 :: c4 :: c5 :: rest =>
    let key := if ci then pyLower [c1, c2, c3, c4, c5] else [c1, c2, c3, c4, c5]
    if key = chars "note-" then
      let ds := rest.takeWhile Char.isDigit
      if ds.isEmpty then none
      else some ([c1, c2, c3, c4, c5] ++ ds, rest.dropWhile Char.isDigit)
    else none
  | _ => none

/-- The commands Adapter A distinguishes (in source order). -/
inductive FCmd where
  | listNotes
  | readNote (slug : Str)
  | newNote
  | searchNotes (q : Str)
  | unrecognized
deriving DecidableEq, Repr

/-- `re.match(r"/?read\s+(note-\d+)", cmd, re.IGNORECASE)`: anchored at the
start only; the group is the captured slug. -/
def matchReadFilter (cmd : Str) : Option Str :=
  let s := match cmd with | '/' :: rest => rest | _ => cmd
  if (chars "read").isPrefixOf (pyLower s) then
    let rest := s.drop 4
    if (rest.takeWhile isPySpace).isEmpty then none
    else (matchSlugAt true (rest.dropWhile isPySpace)).map (fun p => p.1)
  else none

/-- `re.match(r"/?search\s+(.+)", cmd, re.IGNORECASE)`: the group is every
following character up to the next newline. (Only ever applied to
whitespace-stripped text, where this agrees with the backtracking engine.) -/
def matchSearchFilter (cmd : Str) : Option Str :=
  let s := match cmd with | '/' :: rest => rest | _ => cmd
  if (chars "search").isPrefixOf (pyLower s) then
    let rest := s.drop 6
    if (rest.takeWhile isPySpace).isEmpty then none
    else
      match (rest.dropWhile isPySpace).takeWhile (fun c => c ≠ '\n') with
      | [] => none
      | g => some g
  else none

/-- The slash-command dispatch order of `Filter.inlet` (source lines
174-224): list keywords, then `/read`, then `/new`, then `/search`. -/
def classifyFilter (cmd : Str) : FCmd :=
  if cmd = chars "/notes" ∨ cmd = chars "notes" ∨ (chars "/notes ").isPrefixOf cmd then
    .listNotes
  else
    match matchReadFilter cmd with
    | some slug => .readNote slug
    | none =>
      if cmd = chars "/new" ∨ cmd = chars "new" then .newNote
      else
        match matchSearchFilter cmd with
        | some q => .searchNotes q
        | none => .unrecognized

/-- Fueled scan for `re.findall(r"note-\d+", s, re.IGNORECASE)`:
left-to-right, non-overlapping, greedy digits. -/
def findAllNoteF : Nat → Str → List Str
  | 0, _ => []
  | _ + 1, [] => []
  | fuel + 1, c :: rest =>
    match matchSlugAt true (c :: rest) with
    | some (m, after) => m :: findAllNoteF fuel after
    | none => findAllNoteF fuel rest

def findAllNote (s : Str) : List Str := findAllNoteF s.length s

/-- Order-preserving deduplication (first occurrence kept). -/
def dedupFirstAux (seen : List Str) : List Str → List Str
  | [] => []
  | x :: xs =>
    if x ∈ seen then dedupFirstAux seen xs
    else x :: dedupFirstAux (x :: seen) xs

/-- `list(set(re.findall(r"note-\d+", original_msg, re.IGNORECASE)))`.
A Python `set` iterates in an unspecified order; this fixes the
first-occurrence order, one admissible order, with the same elements. -/
def autoSlugs (s : Str) : List Str := dedupFirstAux [] (findAllNote s)

namespace Filter

/-- One auto-fetch context block (source lines 234-238). -/
def contextPart (note : JVal) (slug : Str) : Except PyErr Str := do
  let title ← jGet note (chars "title")
  let category ← jGet note (chars "category")
  let tags ← jGetD note (chars "tags") (.jarr [])
  let content ← jGetD note (chars "content") (.jstr (chars "(empty)"))
  let tl ← pyIter tags
  let tj ← pyJoinVals (chars ", ") tl
  .ok (chars "**" ++ pyStr title ++ chars "** (`" ++ slug ++ chars "`)\nCategory: "
    ++ pyStr category ++ chars " | Tags: " ++ tj ++ chars "\nContent: "
    ++ pyStr content ++ chars "\n")

/-- The auto-fetch loop: fetch each slug, keep a block for each truthy note. -/
def gatherParts (v : FilterValves) (svc : Svc) : List Str → Except PyErr (List Str)
  | [] => .ok []
  | slug :: rest =>
    match fetch_note v svc slug with
    | none => gatherParts v svc rest
    | some nt =>
      if nt.truthy then do
        let p ← contextPart nt slug
        let ps ← gatherParts v svc rest
        .ok (p :: ps)
      else gatherParts v svc rest

/-- The auto-fetch tail of `inlet` (source lines 226-244): `some s` means
`messages[-1]["content"]` is assigned `s`, `none` means it is untouched. -/
def autoFetchContent (v : FilterValves) (svc : Svc) (origMsg : Str) :
    Except PyErr (Option Str) :=
  if v.enable_auto_fetch then
    let slugs := autoSlugs origMsg
    if slugs.isEmpty then .ok none
    else do
      let parts ← gatherParts v svc slugs
      if parts.isEmpty then .ok none
      else
        .ok (some (chars "[Context: Referenced notes]\n\n"
          ++ joinSep (chars "\n---\n") parts
          ++ chars "\n\n[User message:] " ++ origMsg))
  else .ok none

/-- The content-rewriting logic of `Filter.inlet` (source lines 156-244) on
the stripped message: `some s` means `messages[-1]["content"]` is assigned
`s` before returning the body, `none` means the body is returned as is. -/
def inletContentE (v : FilterValves) (svc : Svc) (origMsg : Str) :
    Except PyErr (Option Str) :=
  if v.enable_slash_commands then
    let cmd := pyStrip (pyLower origMsg)
    match classifyFilter cmd with
    | .listNotes => do
      let notes ← fetch_notesE v svc []
      let md ← render_notes_list_md notes
      .ok (some (chars "[User requested note list. Display this to them:]\n\n" ++ md))
    | .readNote slug =>
      match fetch_note v svc slug with
      | some nt =>
        if nt.truthy then do
          let md ← render_note_md nt false
          .ok (some (chars "[User requested to read " ++ slug
            ++ chars ". Display this:]\n\n" ++ md))
        else
          .ok (some (chars "[Error: note not found]\n\n"
            ++ render_error_md (chars "Note not found")
              (chars "Could not find `" ++ slug ++ chars "`.")))
      | none =>
        .ok (some (chars "[Error: note not found]\n\n"
          ++ render_error_md (chars "Note not found")
            (chars "Could not find `" ++ slug ++ chars "`.")))
    | .newNote => do
      let form ← render_creation_formE v svc
      .ok (some form)
    | .searchNotes q => do
      let notes ← fetch_notesE v svc [(chars "search", q)]
      let md ←
        if notes.truthy then render_notes_list_md notes
        else
          .ok (render_error_md (chars "No results")
            (chars "No notes found matching \x27" ++ q ++ chars "\x27."))
      .ok (some (chars "[Search results for \x27" ++ q ++ chars "\x27:]\n\n" ++ md))
    | .unrecognized => autoFetchContent v svc origMsg
  else autoFetchContent v svc origMsg

/-- `Filter.inlet` (source lines 142-244): the event-emitter side channel is
fire-and-forget and is omitted; every mutation in the source targets
`messages[-1]["content"]`, applied here in one place via `setLastContent`. -/
def inletE (v : FilterValves) (svc : Svc) (body : ChatBody) : Except PyErr ChatBody :=
  match body.messages with
  | [] => .ok body
  | _ :: _ =>
    match (body.messages.getLastD ⟨none, []⟩).content.getD (.pstr []) with
    | .pother _ => .ok body
    | .pstr rawS =>
      (inletContentE v svc (pyStrip rawS)).map
        (fun os =>
          match os with
          | none => body
          | some s => { body with messages := setLastContent body.messages s })

end Filter
/-- The shared stylesheet string of `css_styles` (braces escaped). -/
def cssStyles : Str := chars (
  "\n<style>\n.note-card \x7b\n    border: 1px solid #444;\n    border-radius: 8px;\n    padding: 16px;\n" ++
  "    margin: 8px 0;\n    background: #1e1e1e;\n    font-family: system-ui, -apple-system, sans-serif;\n" ++
  "\x7d\n.note-card-light \x7b\n    background: #f8f8f8;\n    border-color: #ddd;\n\x7d\n.note-header \x7b\n" ++
  "    display: flex;\n    justify-content: space-between;\n    align-items: center;\n    margin-bottom: 12px;\n" ++
  "\x7d\n.note-title \x7b\n    font-size: 18px;\n    font-weight: 600;\n    color: #e0e0e0;\n" ++
  "    margin: 0;\n\x7d\n.note-card-light .note-title \x7b\n    color: #222;\n\x7d\n.note-category \x7b\n" ++
  "    background: #333;\n    color: #aaa;\n    padding: 4px 10px;\n    border-radius: 4px;\n" ++
  "    font-size: 12px;\n\x7d\n.note-card-light .note-category \x7b\n    background: #e0e0e0;\n" ++
  "    color: #555;\n\x7d\n.note-tags \x7b\n    margin-bottom: 12px;\n\x7d\n.note-tag \x7b\n    background: #2a4a2a;\n" ++
  "    color: #8f8;\n    padding: 3px 8px;\n    border-radius: 4px;\n    font-size: 11px;\n    margin-right: 6px;\n" ++
  "    display: inline-block;\n\x7d\n.note-card-light .note-tag \x7b\n    background: #d4edda;\n" ++
  "    color: #155724;\n\x7d\n.note-meta \x7b\n    color: #888;\n    font-size: 12px;\n    margin-bottom: 12px;\n" ++
  "\x7d\n.note-content \x7b\n    background: #252525;\n    padding: 12px;\n    border-radius: 6px;\n" ++
  "    color: #ccc;\n    font-size: 14px;\n    white-space: pre-wrap;\n    line-height: 1.5;\n" ++
  "\x7d\n.note-card-light .note-content \x7b\n    background: #fff;\n    color: #333;\n    border: 1px solid #e0e0e0;\n" ++
  "\x7d\n.note-actions \x7b\n    margin-top: 14px;\n    display: flex;\n    gap: 8px;\n\x7d\n" ++
  ".note-btn \x7b\n    padding: 8px 14px;\n    border: none;\n    border-radius: 5px;\n    cursor: pointer;\n" ++
  "    font-size: 13px;\n    font-weight: 500;\n\x7d\n.note-btn-read \x7b\n    background: #2a4a2a;\n" ++
  "    color: #8f8;\n\x7d\n.note-btn-edit \x7b\n    background: #4a4a2a;\n    color: #ff8;\n\x7d\n" ++
  ".note-btn-delete \x7b\n    background: #4a2a2a;\n    color: #f88;\n\x7d\n.note-list-item \x7b\n" ++
  "    border: 1px solid #333;\n    border-radius: 6px;\n    padding: 12px 16px;\n    margin: 6px 0;\n" ++
  "    background: #1a1a1a;\n    display: flex;\n    justify-content: space-between;\n    align-items: center;\n" ++
  "\x7d\n.note-card-light .note-list-item \x7b\n    background: #fff;\n    border-color: #ddd;\n" ++
  "\x7d\n.note-list-title \x7b\n    font-weight: 500;\n    color: #e0e0e0;\n\x7d\n.note-card-light .note-list-title \x7b\n" ++
  "    color: #222;\n\x7d\n.note-list-meta \x7b\n    color: #666;\n    font-size: 12px;\n\x7d\n" ++
  ".note-error \x7b\n    border: 1px solid #a33;\n    border-radius: 8px;\n    padding: 16px;\n" ++
  "    margin: 8px 0;\n    background: #2a1a1a;\n\x7d\n.note-error-title \x7b\n    color: #f66;\n" ++
  "    font-weight: 600;\n    margin-bottom: 6px;\n\x7d\n.note-error-msg \x7b\n    color: #a88;\n" ++
  "    font-size: 14px;\n\x7d\n.note-help \x7b\n    color: #888;\n    font-size: 13px;\n    margin-top: 12px;\n" ++
  "    padding: 10px;\n    background: #252525;\n    border-radius: 6px;\n\x7d\n.note-card-light .note-help \x7b\n" ++
  "    background: #f0f0f0;\n\x7d\n</style>\n")

/- ### Adapter B: mariposa_pipe.py -/

/-- Configuration valves of the pipe adapter. `passthrough_model` is declared
by the source but never read by any code path. -/
structure PipeValves where
  mariposa_url : Str
  passthrough_model : Str
deriving DecidableEq

def pipeDefaults : PipeValves :=
  ⟨chars "http://host.docker.internal:3020", []⟩

namespace Pipe

/-- `api_get`: failures come back as `{"error": str(e)}` dictionaries. -/
def api_get (u : Str) (svc : Svc) (endp : Str) : JVal :=
  match svc.get (u ++ endp) with
  | .exc m => .jobj [(chars "error", .jstr m)]
  | .resp st body =>
    match raiseForStatus st with
    | some m => .jobj [(chars "error", .jstr m)]
    | none =>
      match body with
      | .badJson m => .jobj [(chars "error", .jstr m)]
      | .parsed j => j

/-- `api_delete`: `{"success": True}` on 204, `{"error": ...}` otherwise. -/
def api_delete (u : Str) (svc : Svc) (endp : Str) : JVal :=
  match svc.del (u ++ endp) with
  | .exc m => .jobj [(chars "error", .jstr m)]
  | .resp st _ =>
    if st = 204 then .jobj [(chars "success", .jbool true)]
    else .jobj [(chars "error", .jstr (chars "Status " ++ chars st.repr))]

def fetch_note (u : Str) (svc : Svc) (slug : Str) : JVal :=
  api_get u svc (chars "/api/notes/" ++ slug)

def fetch_notes (u : Str) (svc : Svc) (params : List (Str × Str)) : JVal :=
  api_get u svc (chars "/api/notes" ++ buildQuery params)

/-- `fetch_categories`: `data["categories"] if data and "categories" in data
else []`; the membership test and subscript can raise on non-dict bodies. -/
def fetch_categoriesE (u : Str) (svc : Svc) : Except PyErr JVal :=
  let data := api_get u svc (chars "/api/categories")
  if ¬ data.truthy then .ok (.jarr [])
  else do
    let b ← pyIn (chars "categories") data
    if b then jIndex data (chars "categories") else .ok (.jarr [])

def fetch_tagsE (u : Str) (svc : Svc) : Except PyErr JVal :=
  let data := api_get u svc (chars "/api/tags")
  if ¬ data.truthy then .ok (.jarr [])
  else do
    let b ← pyIn (chars "tags") data
    if b then jIndex data (chars "tags") else .ok (.jarr [])

def render_error (title msg : Str) : Str :=
  chars "\n<div class=\"note-error\">\n    <div class=\"note-error-title\">‚ö†Ô∏è "
    ++ title ++ chars "</div>\n    <div class=\"note-error-msg\">" ++ msg
    ++ chars "</div>\n</div>\n"

def render_note_card (note : JVal) : Except PyErr Str := do
  let title ← jGetD note (chars "title") (.jstr (chars "Untitled"))
  let slug ← jGetD note (chars "slug") (.jstr [])
  let category ← jGetD note (chars "category") (.jstr (chars "uncategorized"))
  let tags ← jGetD note (chars "tags") (.jarr [])
  let content ← jGetD note (chars "content") (.jstr [])
  let updated ← jGetD note (chars "updatedAt") (.jstr [])
  let tagsHtml ←
    if tags.truthy then do
      let ts ← pyIter tags
      .ok (joinSep [] (ts.map (fun t =>
        chars "<span class=\"note-tag\">" ++ pyStr t ++ chars "</span>")))
    else .ok (chars "<span style=\"color:#666;font-size:12px;\">no tags</span>")
  .ok (chars "\n<div class=\"note-card\">\n    <div class=\"note-header\">\n        <h3 class=\"note-title\">"
    ++ pyStr title ++ chars "</h3>\n        <span class=\"note-category\">"
    ++ pyStr category ++ chars "</span>\n    </div>\n    <div class=\"note-tags\">"
    ++ tagsHtml ++ chars "</div>\n    <div class=\"note-meta\">\n        <strong>Slug:</strong> "
    ++ pyStr slug ++ chars " &nbsp;|&nbsp; <strong>Updated:</strong> " ++ pyStr updated
    ++ chars "\n    </div>\n    <div class=\"note-content\">"
    ++ (if content.truthy then pyStr content else chars "(empty)")
    ++ chars "</div>\n    <div class=\"note-help\">\n        üí° To modify: <code>change title to \"...\"</code> ¬∑ <code>add tag \"...\"</code> ¬∑ <code>update content to \"...\"</code>\n    </div>\n</div>\n")

/-- One list item of `render_note_list`. -/
def noteItemHtml (nt : JVal) : Except PyErr Str := do
  let title ← jGetD nt (chars "title") (.jstr (chars "Untitled"))
  let slug ← jGetD nt (chars "slug") (.jstr [])
  let category ← jGetD nt (chars "category") (.jstr [])
  let tags ← jGetD nt (chars "tags") (.jarr [])
  let tagCount ← pyLen tags
  .ok (chars "\n<div class=\"note-list-item\">\n    <span class=\"note-list-title\">"
    ++ pyStr title ++ chars "</span>\n    <span class=\"note-list-meta\">"
    ++ pyStr category ++ chars " ¬∑ " ++ chars tagCount.repr
    ++ chars " tags ¬∑ <code>" ++ pyStr slug ++ chars "</code></span>\n</div>\n")

def render_note_list (notes : JVal) : Except PyErr Str :=
  if ¬ notes.truthy then
    .ok (render_error (chars "No notes found")
      (chars "You don\x27t have any notes yet. Say <code>create note titled \"...\"</code> to make one."))
  else do
    let n ← pyLen notes
    let xs ← pyIter notes
    let items ← eMapM noteItemHtml xs
    .ok (chars "\n<div class=\"note-card\">\n    <h3 class=\"note-title\">Your Notes ("
      ++ chars n.repr ++ chars ")</h3>\n    <div style=\"margin-top:12px;\">\n        "
      ++ joinSep [] items
      ++ chars "\n    </div>\n    <div class=\"note-help\">\n        üí° Say <code>read note-X</code> to view a note ¬∑ <code>search \"...\"</code> to filter\n    </div>\n</div>\n")

def render_help : Str :=
  chars "\n<div class=\"note-card\">\n    <h3 class=\"note-title\">Mariposa Notes - Help</h3>\n    <div class=\"note-content\">\n<strong>Commands:</strong>\n‚Ä¢ <code>notes</code> or <code>/notes</code> ‚Äî List all notes\n‚Ä¢ <code>read note-X</code> ‚Äî View a specific note\n‚Ä¢ <code>search \"query\"</code> ‚Äî Find notes by title/content\n‚Ä¢ <code>categories</code> ‚Äî List all categories\n‚Ä¢ <code>tags</code> ‚Äî List all tags\n\n<strong>Creating & Editing:</strong>\n‚Ä¢ <code>create note titled \"...\"</code> ‚Äî Create new note\n‚Ä¢ <code>delete note-X</code> ‚Äî Delete a note\n\nAfter viewing a note, you can ask me to:\n‚Ä¢ Change the title, content, category, or tags\n‚Ä¢ Summarize or expand the content\n‚Ä¢ Move it to a different category\n    </div>\n</div>\n"

def render_categories (categories : JVal) : Except PyErr Str :=
  if ¬ categories.truthy then
    .ok (render_error (chars "No categories") (chars "No categories found."))
  else do
    let cs ← pyIter categories
    .ok (chars "\n<div class=\"note-card\">\n    <h3 class=\"note-title\">Categories</h3>\n    <div style=\"margin-top:12px;\">"
      ++ joinSep [] (cs.map (fun c =>
          chars "<span class=\"note-tag\" style=\"margin:4px;\">" ++ pyStr c
            ++ chars "</span>"))
      ++ chars "</div>\n</div>\n")

def render_tags_list (tags : JVal) : Except PyErr Str :=
  if ¬ tags.truthy then
    .ok (render_error (chars "No tags") (chars "No tags found."))
  else do
    let ts ← pyIter tags
    .ok (chars "\n<div class=\"note-card\">\n    <h3 class=\"note-title\">All Tags</h3>\n    <div style=\"margin-top:12px;\">"
      ++ joinSep [] (ts.map (fun t =>
          chars "<span class=\"note-tag\" style=\"margin:4px;\">" ++ pyStr t
            ++ chars "</span>"))
      ++ chars "</div>\n</div>\n")

def render_deleted (slug : Str) : Str :=
  chars "\n<div class=\"note-card\" style=\"border-color:#4a4;\">\n    <h3 class=\"note-title\" style=\"color:#8f8;\">‚úì Note Deleted</h3>\n    <div class=\"note-meta\">Successfully deleted <code>"
    ++ slug ++ chars "</code></div>\n</div>\n"

/-- The artifact wrapper: a fenced HTML block with the shared stylesheet. -/
def artifact (html : Str) : Str :=
  chars "```html\n" ++ cssStyles ++ chars "\n" ++ html ++ chars "\n```"

/-- The fallback answer for unrecognized input (source lines 417-424). -/
def fallbackMsg (userMsg : Str) : Str :=
  chars "I received: \"" ++ userMsg
    ++ chars "\"\n\nThis doesn\x27t match a notes command. Available commands:\n- `notes` ‚Äî List all notes  \n- `read note-X` ‚Äî View a note\n- `search \"query\"` ‚Äî Find notes\n- `help` ‚Äî Show all commands\n\nOr ask me naturally about your notes and I\x27ll use the Mariposa tools to help!"

end Pipe

/- ### Command matching (Adapter B) -/

/-- The commands Adapter B distinguishes (in source order). -/
inductive PCmd where
  | helpCmd
  | listNotes
  | readNote (slug : Str)
  | searchNotes (q : Str)
  | listCategories
  | listTags
  | deleteNote (slug : Str)
  | unrecognized
deriving DecidableEq, Repr

/-- The end-anchoring of the pipe regexes: a slug match counts only when it
consumes the whole remainder. -/
def slugExact (o : Option (Str × Str)) : Option Str :=
  match o with
  | some (m, []) => some m
  | _ => none

/-- `re.match(r"^/?(?:read|show|open|view)\s+(note-\d+)$", cmd)`: fully
anchored, case-sensitive (the input is already lower-cased). -/
def matchReadPipe (cmd : Str) : Option Str :=
  let s := match cmd with | '/' :: rest => rest | _ => cmd
  let afterKw :=
    if (chars "read").isPrefixOf s then some (s.drop 4)
    else if (chars "show").isPrefixOf s then some (s.drop 4)
    else if (chars "open").isPrefixOf s then some (s.drop 4)
    else if (chars "view").isPrefixOf s then some (s.drop 4)
    else none
  match afterKw with
  | none => none
  | some rest =>
    if (rest.takeWhile isPySpace).isEmpty then none
    else slugExact (matchSlugAt false (rest.dropWhile isPySpace))

/-- `re.match(r"^/?delete\s+(note-\d+)$", cmd)`. -/
def matchDeletePipe (cmd : Str) : Option Str :=
  let s := match cmd with | '/' :: rest => rest | _ => cmd
  if (chars "delete").isPrefixOf s then
    let rest := s.drop 6
    if (rest.takeWhile isPySpace).isEmpty then none
    else slugExact (matchSlugAt false (rest.dropWhile isPySpace))
  else none

/-- `re.match(r'^/?search\s+["\x27]?(.+?)["\x27]?$', cmd)`: one optional
quote is stripped from each end of the lazily-captured group; `.` cannot
cross a newline and the match is end-anchored. (Only ever applied to
whitespace-stripped text.) -/
def matchSearchPipe (cmd : Str) : Option Str :=
  let s := match cmd with | '/' :: rest => rest | _ => cmd
  if (chars "search").isPrefixOf s then
    let rest := s.drop 6
    if (rest.takeWhile isPySpace).isEmpty then none
    else
      let r := rest.dropWhile isPySpace
      if r.isEmpty then none
      else if r.any (fun c => c = '\n') then none
      else
        let isQuote : Char → Bool := fun c => c = '"' || c = apos
        let r1 :=
          match r with
          | c :: d :: rest2 => if isQuote c then d :: rest2 else r
          | _ => r
        let lastQ : Bool :=
          match r1.getLast? with
          | some c => isQuote c
          | none => false
        let r2 := if 2 ≤ r1.length ∧ lastQ then r1.dropLast else r1
        some r2
  else none

/-- The command dispatch order of `Pipe.pipe` (source lines 363-412):
help keywords, list keywords, read, search, categories, tags, delete. -/
def classifyPipe (cmd : Str) : PCmd :=
  if cmd ∈ [chars "help", chars "/help", chars "?", chars "notes help"] then
    .helpCmd
  else if cmd ∈ [chars "notes", chars "/notes", chars "list notes",
      chars "show notes", chars "my notes"] then
    .listNotes
  else
    match matchReadPipe cmd with
    | some slug => .readNote slug
    | none =>
      match matchSearchPipe cmd with
      | some q => .searchNotes q
      | none =>
        if cmd ∈ [chars "categories", chars "/categories",
            chars "list categories", chars "show categories"] then
          .listCategories
        else if cmd ∈ [chars "tags", chars "/tags", chars "list tags",
            chars "show tags", chars "all tags"] then
          .listTags
        else
          match matchDeletePipe cmd with
          | some slug => .deleteNote slug
          | none => .unrecognized

namespace Pipe

/-- `Pipe.pipe` (source lines 349-424) as a function of the base URL; the
`.strip()` on a non-string content raises `AttributeError`. -/
def pipeCore (u : Str) (svc : Svc) (body : ChatBody) : Except PyErr Str :=
  match body.messages with
  | [] => .ok (chars "No messages received.")
  | _ :: _ =>
    match (body.messages.getLastD ⟨none, []⟩).content.getD (.pstr []) with
    | .pother _ => .error .attrError
    | .pstr raw =>
      let userMsg := pyStrip raw
      let cmd := pyStrip (pyLower userMsg)
      match classifyPipe cmd with
      | .helpCmd => .ok (artifact render_help)
      | .listNotes => do
        let data := fetch_notes u svc []
        let hasErr ← pyIn (chars "error") data
        if hasErr then do
          let ev ← jIndex data (chars "error")
          .ok (artifact (render_error (chars "Connection Error")
            (chars "Could not reach Mariposa: " ++ pyStr ev)))
        else do
          let notes ← jGetD data (chars "notes") (.jarr [])
          let html ← render_note_list notes
          .ok (artifact html)
      | .readNote slug => do
        let note := fetch_note u svc slug
        let bad ← if ¬ note.truthy then pure true else pyIn (chars "error") note
        if bad then
          .ok (artifact (render_error (chars "Note not found")
            (chars "Could not find <code>" ++ slug ++ chars "</code>")))
        else do
          let html ← render_note_card note
          .ok (artifact html)
      | .searchNotes q => do
        let data := fetch_notes u svc [(chars "search", q)]
        let hasErr ← pyIn (chars "error") data
        if hasErr then do
          let ev ← jIndex data (chars "error")
          .ok (artifact (render_error (chars "Search Error") (pyStr ev)))
        else do
          let notes ← jGetD data (chars "notes") (.jarr [])
          if ¬ notes.truthy then
            .ok (artifact (render_error (chars "No results")
              (chars "No notes found matching \"" ++ q ++ chars "\"")))
          else do
            let html ← render_note_list notes
            .ok (artifact
              (chars "<div style=\"color:#888;margin-bottom:8px;\">Search results for \""
                ++ q ++ chars "\":</div>" ++ html))
      | .listCategories => do
        let categories ← fetch_categoriesE u svc
        let html ← render_categories categories
        .ok (artifact html)
      | .listTags => do
        let tags ← fetch_tagsE u svc
        let html ← render_tags_list tags
        .ok (artifact html)
      | .deleteNote slug => do
        let result := api_delete u svc (chars "/api/notes/" ++ slug)
        let succ ← jGet result (chars "success")
        if succ.truthy then .ok (artifact (render_deleted slug))
        else do
          let em ← jGetD result (chars "error") (.jstr (chars "Unknown error"))
          .ok (artifact (render_error (chars "Delete Failed")
            (chars "Could not delete " ++ slug ++ chars ": " ++ pyStr em)))
      | .unrecognized => .ok (fallbackMsg userMsg)

/-- `pipe` as seen by the host: the response string, paired with the body
dictionary as it stands afterwards (the source never assigns into it). -/
def pipeE (v : PipeValves) (svc : Svc) (body : ChatBody) :
    Except PyErr (Str × ChatBody) :=
  (pipeCore v.mariposa_url svc body).map (fun s => (s, body))

end Pipe

/- ### Rendered-output forms (proof abbreviations for the templates) -/

/-- The tags fragment `render_note_md` computes for a string-array value. -/
def mdTagsOf (xs : List JVal) : Str :=
  if xs.isEmpty then chars "_no tags_"
  else joinSep (chars ", ") (xs.map (fun t => chars "`" ++ pyStr t ++ chars "`"))

/-- The full-detail output of `render_note_md` on an object note, with the
tags fragment abstracted. -/
def mdNoteForm (kvs : List (Str × JVal)) (ts : Str) : Str :=
  chars "### " ++ pyStr ((jLookup kvs (chars "title")).getD (.jstr (chars "Untitled")))
    ++ chars "\n\n**Category:** "
    ++ pyStr ((jLookup kvs (chars "category")).getD (.jstr (chars "uncategorized")))
    ++ chars " | **Tags:** " ++ ts
    ++ chars "  \n**Slug:** `" ++ pyStr ((jLookup kvs (chars "slug")).getD (.jstr []))
    ++ chars "` | **Updated:** " ++ pyStr ((jLookup kvs (chars "updatedAt")).getD (.jstr []))
    ++ chars "\n\n---\n\n"
    ++ (if ((jLookup kvs (chars "content")).getD (.jstr [])).truthy then
          pyStr ((jLookup kvs (chars "content")).getD (.jstr []))
        else chars "_No content_")
    ++ chars "\n\n---\n\n**Actions:** `read "
    ++ pyStr ((jLookup kvs (chars "slug")).getD (.jstr []))
    ++ chars "` · `edit " ++ pyStr ((jLookup kvs (chars "slug")).getD (.jstr []))
    ++ chars "` · `delete " ++ pyStr ((jLookup kvs (chars "slug")).getD (.jstr []))
    ++ chars "`\n"

/-- The tags fragment `render_note_card` computes for a string-array value. -/
def tagsHtmlOf (xs : List JVal) : Str :=
  if xs.isEmpty then
    chars "<span style=\"color:#666;font-size:12px;\">" ++ chars "no tags"
      ++ chars "</span>"
  else joinSep [] (xs.map (fun t =>
    chars "<span class=\"note-tag\">" ++ pyStr t ++ chars "</span>"))

/-- The output of `render_note_card` on an object note, with the tags
fragment abstracted. -/
def htmlNoteForm (kvs : List (Str × JVal)) (th : Str) : Str :=
  chars "\n<div class=\"note-card\">\n    <div class=\"note-header\">\n        <h3 class=\"note-title\">"
    ++ pyStr ((jLookup kvs (chars "title")).getD (.jstr (chars "Untitled")))
    ++ chars "</h3>\n        <span class=\"note-category\">"
    ++ pyStr ((jLookup kvs (chars "category")).getD (.jstr (chars "uncategorized")))
    ++ chars "</span>\n    </div>\n    <div class=\"note-tags\">" ++ th
    ++ chars "</div>\n    <div class=\"note-meta\">\n        <strong>Slug:</strong> "
    ++ pyStr ((jLookup kvs (chars "slug")).getD (.jstr []))
    ++ chars " &nbsp;|&nbsp; <strong>Updated:</strong> "
    ++ pyStr ((jLookup kvs (chars "updatedAt")).getD (.jstr []))
    ++ chars "\n    </div>\n    <div class=\"note-content\">"
    ++ (if ((jLookup kvs (chars "content")).getD (.jstr [])).truthy then
          pyStr ((jLookup kvs (chars "content")).getD (.jstr []))
        else chars "(empty)")
    ++ chars "</div>\n    <div class=\"note-help\">\n        üí° To modify: <code>change title to \"...\"</code> ¬∑ <code>add tag \"...\"</code> ¬∑ <code>update content to \"...\"</code>\n    </div>\n</div>\n"

/- ### Well-shaped service responses -/

/-- A JSON string. -/
def isJStr : JVal → Bool
  | .jstr _ => true
  | _ => false

/-- A JSON array of strings. -/
def isStrArr : JVal → Bool
  | .jarr xs => xs.all isJStr
  | _ => false

/-- A JSON object whose `tags` field, when present, is a string array:
what the renderers need in order not to raise. -/
def goodNote : JVal → Bool
  | .jobj kvs =>
    (match jLookup kvs (chars "tags") with
     | none => true
     | some t => isStrArr t)
  | _ => false

/-- A well-shaped top-level response body: an object whose `notes` field
(when present) is an array of well-shaped notes and whose `categories` and
`tags` fields (when present) are string arrays. -/
def goodTop : JVal → Bool
  | .jobj kvs =>
    (match jLookup kvs (chars "notes") with
     | none => true
     | some (.jarr xs) => xs.all goodNote
     | some _ => false)
    && (match jLookup kvs (chars "categories") with
        | none => true
        | some c => isStrArr c)
    && (match jLookup kvs (chars "tags") with
        | none => true
        | some t => isStrArr t)
  | _ => false

/-- Every parsed body the service hands back is well-shaped. -/
def GoodSvc (svc : Svc) : Prop :=
  ∀ url, match svc.get url with
    | .resp _ (.parsed v) => goodTop v = true
    | _ => True

/- ### Failure outcomes and concrete instances -/

/-- A GET outcome on which the clients degrade: a transport exception, a
4xx/5xx status, or an unparseable body. -/
def failedGet (o : HttpOutcome) : Prop :=
  match o with
  | .exc _ => True
  | .resp st b => (400 ≤ st ∧ st < 600) ∨ ∃ m, b = .badJson m

/-- A DELETE outcome the code reports as failure: exception or non-204. -/
def failedDel (o : HttpOutcome) : Prop :=
  match o with
  | .exc _ => True
  | .resp st _ => st ≠ 204

/-- A service whose every call raises a transport exception. -/
def svcDown : Svc :=
  ⟨fun _ => .exc (chars "boom"), fun _ => .exc (chars "boom")⟩

/-- A service answering every GET with status 304 and a parseable object. -/
def svc304 : Svc :=
  ⟨fun _ => .resp 304 (.parsed (.jobj [(chars "title", .jstr (chars "T"))])),
   fun _ => .resp 304 (.badJson (chars "empty"))⟩

/-- A service that knows the note `note-1` at the default base URL. -/
def svcNote1 : Svc :=
  ⟨fun url =>
    if url = chars "http://host.docker.internal:3020/api/notes/note-1" then
      .resp 200 (.parsed (.jobj
        [(chars "title", .jstr (chars "T1")),
         (chars "slug", .jstr (chars "note-1")),
         (chars "category", .jstr (chars "work")),
         (chars "tags", .jarr [.jstr (chars "q1")]),
         (chars "content", .jstr (chars "Hello"))]))
    else .resp 404 (.badJson (chars "not found")),
   fun _ => .resp 404 (.badJson (chars "not found"))⟩

/-- A body whose last message content is not a string. -/
def bodyNonStr (tag : Nat) : ChatBody := ⟨[⟨some (.pother tag), []⟩], []⟩

/-- A one-message body with the given string content. -/
def bodyStr (s : String) : ChatBody := ⟨[⟨some (.pstr (chars s)), []⟩], []⟩

/-- A two-message body with extra fields everywhere, for the frame claim. -/
def bodyFrame : ChatBody :=
  ⟨[⟨some (.pstr (chars "first")), [(chars "role", .pstr (chars "user"))]⟩,
    ⟨some (.pstr (chars "hello")), [(chars "role", .pother 7)]⟩],
   [(chars "model", .pstr (chars "m")), (chars "stream", .pother 9)]⟩

/-- The context block Adapter A builds for `note-1` from `svcNote1`. -/
def c5Part : Str :=
  chars "**T1** (`note-1`)\nCategory: work | Tags: q1\nContent: Hello\n"

/-- The content Adapter A produces for the `C5` counterexample input. -/
def c5Content : Str :=
  chars "[Context: Referenced notes]\n\n**T1** (`note-1`)\nCategory: work | Tags: q1\nContent: Hello\n\n\n[User message:] see note-1"

/- ### Except-monad helpers -/

@[simp] theorem ebind_ok (a : α) (f : α → Except PyErr β) :
    (Except.ok a >>= f) = f a := rfl

@[simp] theorem ebind_error (e : PyErr) (f : α → Except PyErr β) :
    ((Except.error e : Except PyErr α) >>= f) = .error e := rfl

@[simp] theorem emap_ok (a : α) (f : α → β) :
    (Except.ok a : Except PyErr α).map f = .ok (f a) := rfl

@[simp] theorem emap_error (e : PyErr) (f : α → β) :
    (Except.error e : Except PyErr α).map f = .error e := rfl

theorem bind_ok_elim {e : Except PyErr α} {f : α → Except PyErr β} {b : β}
    (h : (e >>= f) = .ok b) : ∃ a, e = .ok a ∧ f a = .ok b := by
  cases e with
  | ok a => exact ⟨a, rfl, h⟩
  | error e => simp at h

theorem map_ok_elim {e : Except PyErr α} {f : α → β} {b : β}
    (h : e.map f = .ok b) : ∃ a, e = .ok a ∧ f a = b := by
  cases e with
  | ok a =>
    refine ⟨a, rfl, ?_⟩
    simpa using h
  | error e => simp at h

/- ### Elimination lemmas for the shape predicates -/

theorem isJStr_elim {x : JVal} (h : isJStr x = true) : ∃ s, x = .jstr s := by
  cases x <;> simp [isJStr] at h ⊢

theorem isStrArr_elim {t : JVal} (h : isStrArr t = true) :
    ∃ xs, t = .jarr xs ∧ ∀ x ∈ xs, isJStr x = true := by
  cases t <;> simp [isStrArr, List.all_eq_true] at h ⊢
  exact h

theorem pyJoinVals_ok (sep : Str) :
    ∀ xs : List JVal, (∀ x ∈ xs, isJStr x = true) → ∃ r, pyJoinVals sep xs = .ok r := by
  intro xs
  induction xs with
  | nil => exact fun _ => ⟨[], rfl⟩
  | cons x ys ih =>
    intro h
    obtain ⟨s, rfl⟩ := isJStr_elim (h x (by simp))
    cases ys with
    | nil => exact ⟨s, rfl⟩
    | cons y zs =>
      obtain ⟨r, hr⟩ := ih (fun a ha => h a (by simp [ha]))
      exact ⟨s ++ sep ++ r, by simp [pyJoinVals, hr]⟩

theorem eMapM_ok {f : α → Except PyErr β} :
    ∀ xs : List α, (∀ x ∈ xs, ∃ y, f x = .ok y) → ∃ l, eMapM f xs = .ok l := by
  intro xs
  induction xs with
  | nil => exact fun _ => ⟨[], rfl⟩
  | cons x ys ih =>
    intro h
    obtain ⟨y, hy⟩ := h x (by simp)
    obtain ⟨l, hl⟩ := ih (fun a ha => h a (by simp [ha]))
    exact ⟨y :: l, by simp [eMapM, hy, hl]⟩

theorem goodTop_obj {v : JVal} (h : goodTop v = true) : ∃ kvs, v = .jobj kvs := by
  cases v <;> first
  | exact ⟨_, rfl⟩
  | simp [goodTop] at h

theorem goodTop_split {kvs : List (Str × JVal)} (h : goodTop (.jobj kvs) = true) :
    (match jLookup kvs (chars "notes") with
     | none => true
     | some (.jarr xs) => xs.all goodNote
     | some _ => false) = true
    ∧ (match jLookup kvs (chars "categories") with
       | none => true
       | some c => isStrArr c) = true
    ∧ (match jLookup kvs (chars "tags") with
       | none => true
       | some t => isStrArr t) = true := by
  simpa [goodTop, Bool.and_eq_true, and_assoc] using h

theorem goodTop_notesD {kvs : List (Str × JVal)} (h : goodTop (.jobj kvs) = true) :
    ∃ xs, (jLookup kvs (chars "notes")).getD (.jarr []) = .jarr xs
      ∧ ∀ x ∈ xs, goodNote x = true := by
  obtain ⟨h1, -, -⟩ := goodTop_split h
  rcases e : jLookup kvs (chars "notes") with _ | w
  · exact ⟨[], by simp [e], by simp⟩
  · rw [e] at h1
    cases w <;> simp at h1
    case jarr xs =>
      exact ⟨xs, by simp [e], by simpa [List.all_eq_true] using h1⟩

theorem goodTop_tagsD {kvs : List (Str × JVal)} (h : goodTop (.jobj kvs) = true) :
    isStrArr ((jLookup kvs (chars "tags")).getD (.jarr [])) = true := by
  obtain ⟨-, -, h3⟩ := goodTop_split h
  rcases e : jLookup kvs (chars "tags") with _ | t
  · simp [isStrArr]
  · rw [e] at h3
    simpa using h3

theorem goodTop_catsD {kvs : List (Str × JVal)} (h : goodTop (.jobj kvs) = true) :
    isStrArr ((jLookup kvs (chars "categories")).getD (.jarr [])) = true := by
  obtain ⟨-, h2, -⟩ := goodTop_split h
  rcases e : jLookup kvs (chars "categories") with _ | c
  · simp [isStrArr]
  · rw [e] at h2
    simpa using h2

theorem goodNote_obj {v : JVal} (h : goodNote v = true) : ∃ kvs, v = .jobj kvs := by
  cases v <;> first
  | exact ⟨_, rfl⟩
  | simp [goodNote] at h

theorem goodNote_tagsD {kvs : List (Str × JVal)} (h : goodNote (.jobj kvs) = true) :
    isStrArr ((jLookup kvs (chars "tags")).getD (.jarr [])) = true := by
  simp only [goodNote] at h
  rcases e : jLookup kvs (chars "tags") with _ | t
  · simp [isStrArr]
  · rw [e] at h
    simpa using h

theorem goodTop_goodNote {v : JVal} (h : goodTop v = true) : goodNote v = true := by
  obtain ⟨kvs, rfl⟩ := goodTop_obj h
  obtain ⟨-, -, h3⟩ := goodTop_split h
  simpa [goodNote] using h3

/- ### The filter client degrades without raising (under good shapes) -/

theorem filter_api_get_good {v : FilterValves} {svc : Svc} (h : GoodSvc svc)
    (endp : Str) {j : JVal} (hj : Filter.api_get v svc endp = some j) :
    goodTop j = true := by
  have hg := h (v.mariposa_url ++ endp)
  unfold Filter.api_get at hj
  cases e : svc.get (v.mariposa_url ++ endp) with
  | exc m => rw [e] at hj; simp at hj
  | resp st body =>
    rw [e] at hj hg
    dsimp only at hj hg
    rcases f : raiseForStatus st with _ | m
    · rw [f] at hj
      dsimp only at hj
      cases body with
      | badJson m => simp at hj
      | parsed w =>
        dsimp only at hg
        simp at hj
        subst hj
        exact hg
    · rw [f] at hj
      simp at hj

theorem fetch_notesE_good {v : FilterValves} {svc : Svc} (h : GoodSvc svc)
    (params : List (Str × Str)) :
    ∃ xs, Filter.fetch_notesE v svc params = .ok (.jarr xs)
      ∧ ∀ x ∈ xs, goodNote x = true := by
  unfold Filter.fetch_notesE
  cases e : Filter.api_get v svc (chars "/api/notes" ++ buildQuery params) with
  | none => exact ⟨[], rfl, by simp⟩
  | some d =>
    have hg := filter_api_get_good h _ e
    obtain ⟨kvs, rfl⟩ := goodTop_obj hg
    obtain ⟨xs, hx, hgood⟩ := goodTop_notesD hg
    by_cases ht : (JVal.jobj kvs).truthy = true
    · refine ⟨xs, ?_, hgood⟩
      simp [ht, jGetD, hx]
    · refine ⟨[], ?_, by simp⟩
      simp [Bool.not_eq_true] at ht
      simp [ht]

theorem fetch_categoriesE_good {v : FilterValves} {svc : Svc} (h : GoodSvc svc) :
    ∃ t, Filter.fetch_categoriesE v svc = .ok t ∧ isStrArr t = true := by
  unfold Filter.fetch_categoriesE
  cases e : Filter.api_get v svc (chars "/api/categories") with
  | none => exact ⟨.jarr [], rfl, by simp [isStrArr]⟩
  | some d =>
    have hg := filter_api_get_good h _ e
    obtain ⟨kvs, rfl⟩ := goodTop_obj hg
    by_cases ht : (JVal.jobj kvs).truthy = true
    · exact ⟨_, by simp [ht, jGetD], goodTop_catsD hg⟩
    · refine ⟨.jarr [], ?_, by simp [isStrArr]⟩
      simp [Bool.not_eq_true] at ht
      simp [ht]

theorem fetch_tagsE_good {v : FilterValves} {svc : Svc} (h : GoodSvc svc) :
    ∃ t, Filter.fetch_tagsE v svc = .ok t ∧ isStrArr t = true := by
  unfold Filter.fetch_tagsE
  cases e : Filter.api_get v svc (chars "/api/tags") with
  | none => exact ⟨.jarr [], rfl, by simp [isStrArr]⟩
  | some d =>
    have hg := filter_api_get_good h _ e
    obtain ⟨kvs, rfl⟩ := goodTop_obj hg
    by_cases ht : (JVal.jobj kvs).truthy = true
    · exact ⟨_, by simp [ht, jGetD], goodTop_tagsD hg⟩
    · refine ⟨.jarr [], ?_, by simp [isStrArr]⟩
      simp [Bool.not_eq_true] at ht
      simp [ht]

/- ### The filter renderers do not raise on well-shaped notes -/

theorem eok_exists {e : Except PyErr α} {a : α} (h : e = .ok a) :
    ∃ b, e = .ok b := ⟨a, h⟩

theorem mdTagsStr_ok (xs : List JVal) : ∃ s, Filter.mdTagsStr (.jarr xs) = .ok s := by
  cases xs with
  | nil => exact ⟨_, rfl⟩
  | cons x ys => exact ⟨_, rfl⟩

theorem render_note_md_ok {kvs : List (Str × JVal)}
    (htags : isStrArr ((jLookup kvs (chars "tags")).getD (.jarr [])) = true)
    (c : Bool) : ∃ s, Filter.render_note_md (.jobj kvs) c = .ok s := by
  obtain ⟨xs, e, -⟩ := isStrArr_elim htags
  obtain ⟨ts, hts⟩ := mdTagsStr_ok xs
  cases c <;>
    simp [Filter.render_note_md, jGetD, e, hts, pyLen]

theorem noteLineMd_ok {nt : JVal} (h : goodNote nt = true) :
    ∃ s, Filter.noteLineMd nt = .ok s := by
  obtain ⟨kvs, rfl⟩ := goodNote_obj h
  obtain ⟨xs, e, hall⟩ := isStrArr_elim (goodNote_tagsD h)
  cases xs with
  | nil => simp [Filter.noteLineMd, jGetD, e, JVal.truthy]
  | cons x ys =>
    obtain ⟨r, hr⟩ := pyJoinVals_ok (chars ", ") (x :: ys) hall
    simp [Filter.noteLineMd, jGetD, e, JVal.truthy, pyIter, hr]

theorem render_notes_list_md_ok {xs : List JVal}
    (h : ∀ x ∈ xs, goodNote x = true) :
    ∃ s, Filter.render_notes_list_md (.jarr xs) = .ok s := by
  cases xs with
  | nil => exact ⟨_, rfl⟩
  | cons x ys =>
    obtain ⟨l, hl⟩ := eMapM_ok (x :: ys) (fun nt hm => noteLineMd_ok (h nt hm))
    simp [Filter.render_notes_list_md, JVal.truthy, pyLen, pyIter, hl]

theorem render_creation_formE_ok {v : FilterValves} {svc : Svc} (h : GoodSvc svc) :
    ∃ s, Filter.render_creation_formE v svc = .ok s := by
  obtain ⟨c, hc, hcs⟩ := fetch_categoriesE_good (v := v) h
  obtain ⟨t, ht, hts⟩ := fetch_tagsE_good (v := v) h
  obtain ⟨cxs, rfl, -⟩ := isStrArr_elim hcs
  obtain ⟨txs, rfl, -⟩ := isStrArr_elim hts
  cases cxs <;> cases txs <;>
    simp [Filter.render_creation_formE, hc, ht, JVal.truthy, pyIter]

theorem contextPart_ok {nt : JVal} (h : goodNote nt = true) (slug : Str) :
    ∃ s, Filter.contextPart nt slug = .ok s := by
  obtain ⟨kvs, rfl⟩ := goodNote_obj h
  obtain ⟨xs, e, hall⟩ := isStrArr_elim (goodNote_tagsD h)
  obtain ⟨r, hr⟩ := pyJoinVals_ok (chars ", ") xs hall
  simp [Filter.contextPart, jGet, jGetD, e, pyIter, hr]

theorem gatherParts_ok {v : FilterValves} {svc : Svc} (h : GoodSvc svc) :
    ∀ slugs, ∃ ps, Filter.gatherParts v svc slugs = .ok ps := by
  intro slugs
  induction slugs with
  | nil => exact ⟨[], rfl⟩
  | cons slug rest ih =>
    obtain ⟨ps, hps⟩ := ih
    unfold Filter.gatherParts
    cases e : Filter.fetch_note v svc slug with
    | none => exact ⟨ps, hps⟩
    | some nt =>
      have hg : goodTop nt = true := by
        unfold Filter.fetch_note at e
        exact filter_api_get_good h _ e
      by_cases htr : nt.truthy = true
      · obtain ⟨p, hp⟩ := contextPart_ok (goodTop_goodNote hg) slug
        exact ⟨p :: ps, by simp [htr, hp, hps]⟩
      · simp only [Bool.not_eq_true] at htr
        exact ⟨ps, by simp [htr, hps]⟩

theorem autoFetchContent_ok {v : FilterValves} {svc : Svc} (h : GoodSvc svc)
    (orig : Str) : ∃ os, Filter.autoFetchContent v svc orig = .ok os := by
  unfold Filter.autoFetchContent
  by_cases haf : v.enable_auto_fetch = true
  · obtain ⟨ps, hps⟩ := gatherParts_ok (v := v) h (autoSlugs orig)
    by_cases hsl : (autoSlugs orig).isEmpty = true
    · exact ⟨none, by simp [haf, hsl]⟩
    · simp only [Bool.not_eq_true] at hsl
      by_cases hpe : ps = []
      · exact ⟨none, by simp [haf, hsl, hps, hpe]⟩
      · exact eok_exists (by
          simp only [haf, if_true, hsl, Bool.false_eq_true, if_false, hps, ebind_ok]
          rw [if_neg (by simpa using hpe)])
  · simp only [Bool.not_eq_true] at haf
    exact ⟨none, by simp [haf]⟩

theorem inletContentE_ok {v : FilterValves} {svc : Svc} (h : GoodSvc svc)
    (orig : Str) : ∃ os, Filter.inletContentE v svc orig = .ok os := by
  unfold Filter.inletContentE
  by_cases hsc : v.enable_slash_commands = true
  case neg =>
    simp only [Bool.not_eq_true] at hsc
    simpa [hsc] using autoFetchContent_ok h orig
  case pos =>
    simp only [hsc, if_true]
    cases hcl : classifyFilter (pyStrip (pyLower orig)) with
    | listNotes =>
      dsimp only
      obtain ⟨xs, hxs, hgood⟩ := fetch_notesE_good (v := v) h []
      obtain ⟨md, hmd⟩ := render_notes_list_md_ok hgood
      exact eok_exists (by rw [hxs, ebind_ok, hmd, ebind_ok])
    | readNote slug =>
      dsimp only
      cases e : Filter.fetch_note v svc slug with
      | none => exact ⟨_, rfl⟩
      | some nt =>
        have hg : goodTop nt = true := by
          unfold Filter.fetch_note at e
          exact filter_api_get_good h _ e
        by_cases htr : nt.truthy = true
        · obtain ⟨kvs, rfl⟩ := goodTop_obj hg
          obtain ⟨md, hmd⟩ :=
            render_note_md_ok (goodNote_tagsD (goodTop_goodNote hg)) false
          exact eok_exists (by
            simp only [e, htr, if_true, hmd, ebind_ok]
            rfl)
        · simp only [Bool.not_eq_true] at htr
          exact eok_exists (by
            simp [e, htr]
            rfl)
    | newNote =>
      dsimp only
      obtain ⟨form, hform⟩ := render_creation_formE_ok (v := v) h
      exact eok_exists (by rw [hform, ebind_ok])
    | searchNotes q =>
      dsimp only
      obtain ⟨xs, hxs, hgood⟩ := fetch_notesE_good (v := v) h [(chars "search", q)]
      by_cases htr : (JVal.jarr xs).truthy = true
      · obtain ⟨md, hmd⟩ := render_notes_list_md_ok hgood
        exact eok_exists (by
          simp only [hxs, ebind_ok, htr, if_true, hmd]
          rfl)
      · simp only [Bool.not_eq_true] at htr
        exact eok_exists (by
          simp [hxs, htr]
          rfl)
    | unrecognized =>
      dsimp only
      exact autoFetchContent_ok h orig

theorem inletE_ok {v : FilterValves} {svc : Svc} (h : GoodSvc svc)
    (body : ChatBody) : ∃ b2, Filter.inletE v svc body = .ok b2 := by
  unfold Filter.inletE
  cases hm : body.messages with
  | nil => exact ⟨body, rfl⟩
  | cons m ms =>
    dsimp only
    cases hc : ((m :: ms).getLastD ⟨none, []⟩).content.getD (.pstr []) with
    | pother t => exact ⟨body, rfl⟩
    | pstr rawS =>
      obtain ⟨os, hos⟩ := inletContentE_ok (v := v) h (pyStrip rawS)
      exact eok_exists (by dsimp only; rw [hos, emap_ok])

/- ### The pipe client and renderers do not raise (under good shapes) -/

theorem goodTop_errObj (m : Str) :
    goodTop (.jobj [(chars "error", .jstr m)]) = true := by
  have h1 : ¬ (chars "error" = chars "notes") := by decide
  have h2 : ¬ (chars "error" = chars "categories") := by decide
  have h3 : ¬ (chars "error" = chars "tags") := by decide
  simp [goodTop, jLookup, h1, h2, h3]

theorem goodTop_succObj :
    goodTop (.jobj [(chars "success", .jbool true)]) = true := by
  have h1 : ¬ (chars "success" = chars "notes") := by decide
  have h2 : ¬ (chars "success" = chars "categories") := by decide
  have h3 : ¬ (chars "success" = chars "tags") := by decide
  simp [goodTop, jLookup, h1, h2, h3]

theorem pipe_api_get_good {u : Str} {svc : Svc} (h : GoodSvc svc) (endp : Str) :
    goodTop (Pipe.api_get u svc endp) = true := by
  have hg := h (u ++ endp)
  unfold Pipe.api_get
  cases e : svc.get (u ++ endp) with
  | exc m => exact goodTop_errObj m
  | resp st body =>
    rw [e] at hg
    dsimp only
    rcases f : raiseForStatus st with _ | m
    · cases body with
      | badJson m => exact goodTop_errObj m
      | parsed w => exact hg
    · exact goodTop_errObj m

theorem pipe_api_delete_good {u : Str} {svc : Svc} (endp : Str) :
    goodTop (Pipe.api_delete u svc endp) = true := by
  unfold Pipe.api_delete
  cases e : svc.del (u ++ endp) with
  | exc m => exact goodTop_errObj m
  | resp st body =>
    by_cases h204 : st = 204
    · simp only [h204, if_true]
      exact goodTop_succObj
    · simp only [h204, if_false]
      exact goodTop_errObj _

theorem jIndex_ok {kvs : List (Str × JVal)} {k : Str}
    (h : (jLookup kvs k).isSome = true) :
    ∃ x, jIndex (.jobj kvs) k = .ok x := by
  cases e : jLookup kvs k with
  | none => rw [e] at h; simp at h
  | some x => exact ⟨x, by simp only [jIndex, e]⟩

theorem render_note_card_ok {kvs : List (Str × JVal)}
    (htags : isStrArr ((jLookup kvs (chars "tags")).getD (.jarr [])) = true) :
    ∃ s, Pipe.render_note_card (.jobj kvs) = .ok s := by
  obtain ⟨xs, e, -⟩ := isStrArr_elim htags
  cases xs with
  | nil =>
    exact eok_exists (by
      simp only [Pipe.render_note_card, jGetD, ebind_ok]
      rw [e]
      rfl)
  | cons x ys =>
    exact eok_exists (by
      simp only [Pipe.render_note_card, jGetD, ebind_ok]
      rw [e]
      rfl)

theorem noteItemHtml_ok {nt : JVal} (h : goodNote nt = true) :
    ∃ s, Pipe.noteItemHtml nt = .ok s := by
  obtain ⟨kvs, rfl⟩ := goodNote_obj h
  obtain ⟨xs, e, -⟩ := isStrArr_elim (goodNote_tagsD h)
  exact eok_exists (by
    simp only [Pipe.noteItemHtml, jGetD, ebind_ok]
    rw [e]
    rfl)

theorem render_note_list_ok {xs : List JVal}
    (h : ∀ x ∈ xs, goodNote x = true) :
    ∃ s, Pipe.render_note_list (.jarr xs) = .ok s := by
  cases xs with
  | nil => exact ⟨_, rfl⟩
  | cons x ys =>
    obtain ⟨l, hl⟩ := eMapM_ok (x :: ys) (fun nt hm => noteItemHtml_ok (h nt hm))
    exact eok_exists (by
      simp only [Pipe.render_note_list]
      rw [if_neg (by simp [JVal.truthy])]
      simp only [pyLen, ebind_ok, pyIter, hl]
      rfl)

theorem render_categories_ok (xs : List JVal) :
    ∃ s, Pipe.render_categories (.jarr xs) = .ok s := by
  cases xs with
  | nil => exact ⟨_, rfl⟩
  | cons x ys => exact ⟨_, rfl⟩

theorem render_tags_list_ok (xs : List JVal) :
    ∃ s, Pipe.render_tags_list (.jarr xs) = .ok s := by
  cases xs with
  | nil => exact ⟨_, rfl⟩
  | cons x ys => exact ⟨_, rfl⟩

theorem pipe_fetch_categoriesE_good {u : Str} {svc : Svc} (h : GoodSvc svc) :
    ∃ t, Pipe.fetch_categoriesE u svc = .ok t ∧ isStrArr t = true := by
  have hg := pipe_api_get_good (u := u) h (chars "/api/categories")
  obtain ⟨kvs, hd⟩ := goodTop_obj hg
  rw [hd] at hg
  unfold Pipe.fetch_categoriesE
  rw [hd]
  by_cases ht : (JVal.jobj kvs).truthy = true
  · rw [if_neg (by simp [ht])]
    rcases el : jLookup kvs (chars "categories") with _ | c
    · refine ⟨.jarr [], ?_, by simp [isStrArr]⟩
      simp [pyIn, el]
    · obtain ⟨-, h2, -⟩ := goodTop_split hg
      rw [el] at h2
      refine ⟨c, ?_, by simpa using h2⟩
      simp [pyIn, el, jIndex]
  · rw [if_pos (by simpa using ht)]
    exact ⟨.jarr [], rfl, by simp [isStrArr]⟩

theorem pipe_fetch_tagsE_good {u : Str} {svc : Svc} (h : GoodSvc svc) :
    ∃ t, Pipe.fetch_tagsE u svc = .ok t ∧ isStrArr t = true := by
  have hg := pipe_api_get_good (u := u) h (chars "/api/tags")
  obtain ⟨kvs, hd⟩ := goodTop_obj hg
  rw [hd] at hg
  unfold Pipe.fetch_tagsE
  rw [hd]
  by_cases ht : (JVal.jobj kvs).truthy = true
  · rw [if_neg (by simp [ht])]
    rcases el : jLookup kvs (chars "tags") with _ | c
    · refine ⟨.jarr [], ?_, by simp [isStrArr]⟩
      simp [pyIn, el]
    · obtain ⟨-, -, h3⟩ := goodTop_split hg
      rw [el] at h3
      refine ⟨c, ?_, by simpa using h3⟩
      simp [pyIn, el, jIndex]
  · rw [if_pos (by simpa using ht)]
    exact ⟨.jarr [], rfl, by simp [isStrArr]⟩

theorem pipeCore_ok {u : Str} {svc : Svc} (h : GoodSvc svc) {body : ChatBody}
    (hstr : lastContentIsStr body = true) :
    ∃ s, Pipe.pipeCore u svc body = .ok s := by
  unfold Pipe.pipeCore
  unfold lastContentIsStr at hstr
  cases hm : body.messages with
  | nil => exact ⟨_, rfl⟩
  | cons m ms =>
    rw [hm] at hstr
    dsimp only
    cases hc : ((m :: ms).getLastD ⟨none, []⟩).content.getD (.pstr []) with
    | pother t => rw [hc] at hstr; simp at hstr
    | pstr raw =>
      dsimp only
      cases hcl : classifyPipe (pyStrip (pyLower (pyStrip raw))) with
      | helpCmd => exact ⟨_, rfl⟩
      | unrecognized => exact ⟨_, rfl⟩
      | listNotes =>
        have hgd := pipe_api_get_good (u := u) h (chars "/api/notes" ++ buildQuery [])
        obtain ⟨kvs, hd⟩ := goodTop_obj hgd
        rw [hd] at hgd
        by_cases herr : (jLookup kvs (chars "error")).isSome = true
        · obtain ⟨x, hx⟩ := jIndex_ok herr
          exact eok_exists (by
            simp only [Pipe.fetch_notes]
            rw [hd]
            simp only [pyIn, ebind_ok, herr, if_true, hx]
            rfl)
        · obtain ⟨xs, hx2, hgood⟩ := goodTop_notesD hgd
          obtain ⟨html, hh⟩ := render_note_list_ok hgood
          exact eok_exists (by
            simp only [Pipe.fetch_notes]
            rw [hd]
            simp only [pyIn, ebind_ok, herr, Bool.false_eq_true, if_false, jGetD,
              hx2, hh]
            rfl)
      | readNote slug =>
        have hgd := pipe_api_get_good (u := u) h (chars "/api/notes/" ++ slug)
        obtain ⟨kvs, hd⟩ := goodTop_obj hgd
        rw [hd] at hgd
        by_cases ht : (JVal.jobj kvs).truthy = true
        · by_cases herr : (jLookup kvs (chars "error")).isSome = true
          · exact eok_exists (by
              simp only [Pipe.fetch_note]
              rw [hd]
              simp only [ht, pyIn, ebind_ok, herr, if_true]
              rfl)
          · obtain ⟨html, hh⟩ :=
              render_note_card_ok (goodNote_tagsD (goodTop_goodNote hgd))
            exact eok_exists (by
              simp only [Pipe.fetch_note]
              rw [hd]
              simp only [ht, pyIn, ebind_ok, herr, Bool.false_eq_true, if_false,
                not_true, hh]
              rfl)
        · exact eok_exists (by
            simp only [Pipe.fetch_note]
            rw [hd]
            simp only [ht, Bool.false_eq_true, ebind_ok, if_true]
            rfl)
      | searchNotes q =>
        have hgd := pipe_api_get_good (u := u) h
          (chars "/api/notes" ++ buildQuery [(chars "search", q)])
        obtain ⟨kvs, hd⟩ := goodTop_obj hgd
        rw [hd] at hgd
        by_cases herr : (jLookup kvs (chars "error")).isSome = true
        · obtain ⟨x, hx⟩ := jIndex_ok herr
          exact eok_exists (by
            simp only [Pipe.fetch_notes]
            rw [hd]
            simp only [pyIn, ebind_ok, herr, if_true, hx]
            rfl)
        · obtain ⟨xs, hx2, hgood⟩ := goodTop_notesD hgd
          by_cases htr : (JVal.jarr xs).truthy = true
          · obtain ⟨html, hh⟩ := render_note_list_ok hgood
            exact eok_exists (by
              simp only [Pipe.fetch_notes]
              rw [hd]
              simp only [pyIn, ebind_ok, herr, Bool.false_eq_true, if_false,
                jGetD, hx2, htr, if_true, hh]
              rfl)
          · exact eok_exists (by
              simp only [Pipe.fetch_notes]
              rw [hd]
              simp only [pyIn, ebind_ok, herr, Bool.false_eq_true, if_false,
                jGetD, hx2, htr]
              rfl)
      | listCategories =>
        obtain ⟨t, hct, hst⟩ := pipe_fetch_categoriesE_good (u := u) h
        obtain ⟨xs, rfl, -⟩ := isStrArr_elim hst
        obtain ⟨html, hh⟩ := render_categories_ok xs
        exact eok_exists (by rw [hct, ebind_ok, hh, ebind_ok])
      | listTags =>
        obtain ⟨t, hct, hst⟩ := pipe_fetch_tagsE_good (u := u) h
        obtain ⟨xs, rfl, -⟩ := isStrArr_elim hst
        obtain ⟨html, hh⟩ := render_tags_list_ok xs
        exact eok_exists (by rw [hct, ebind_ok, hh, ebind_ok])
      | deleteNote slug =>
        have hgd := @pipe_api_delete_good u svc
          (chars "/api/notes/" ++ slug)
        obtain ⟨kvs, hd⟩ := goodTop_obj hgd
        by_cases hsucc :
            (((jLookup kvs (chars "success")).getD .jnull).truthy) = true
        · exact eok_exists (by
            dsimp only
            rw [hd]
            simp only [jGet, jGetD, ebind_ok, hsucc, if_true]
            rfl)
        · exact eok_exists (by
            dsimp only
            rw [hd]
            simp only [jGet, jGetD, ebind_ok, hsucc, Bool.false_eq_true, if_false]
            rfl)

theorem pipeE_ok {v : PipeValves} {svc : Svc} (h : GoodSvc svc) {body : ChatBody}
    (hstr : lastContentIsStr body = true) :
    ∃ s, Pipe.pipeE v svc body = .ok (s, body) := by
  obtain ⟨s, hs⟩ := pipeCore_ok (u := v.mariposa_url) h hstr
  exact ⟨s, by unfold Pipe.pipeE; rw [hs, emap_ok]⟩

/- ### C1: client failure behaviour -/

theorem raiseForStatus_fail {st : Nat} (h4 : 400 ≤ st) (h6 : st < 600) :
    ∃ m, raiseForStatus st = some m := by
  unfold raiseForStatus
  by_cases h5 : st < 500
  · rw [if_pos ⟨h4, h5⟩]
    exact ⟨_, rfl⟩
  · rw [if_neg (fun hc => h5 hc.2), if_pos ⟨by omega, h6⟩]
    exact ⟨_, rfl⟩

theorem raiseForStatus_pass {st : Nat} (h : ¬ (400 ≤ st ∧ st < 600)) :
    raiseForStatus st = none := by
  unfold raiseForStatus
  rw [if_neg (by omega), if_neg (by omega)]

theorem filter_api_get_fail {v : FilterValves} {svc : Svc} {endp : Str}
    (hf : failedGet (svc.get (v.mariposa_url ++ endp))) :
    Filter.api_get v svc endp = none := by
  unfold Filter.api_get
  cases e : svc.get (v.mariposa_url ++ endp) with
  | exc m => rfl
  | resp st b =>
    rw [e] at hf
    replace hf : (400 ≤ st ∧ st < 600) ∨ ∃ m, b = .badJson m := hf
    dsimp only
    rcases hf with ⟨h4, h6⟩ | ⟨m, rfl⟩
    · obtain ⟨ms, hms⟩ := raiseForStatus_fail h4 h6
      rw [hms]
    · cases f : raiseForStatus st <;> rfl

theorem pipe_api_get_fail {u : Str} {svc : Svc} {endp : Str}
    (hf : failedGet (svc.get (u ++ endp))) :
    ∃ m, Pipe.api_get u svc endp = .jobj [(chars "error", .jstr m)] := by
  unfold Pipe.api_get
  cases e : svc.get (u ++ endp) with
  | exc m => exact ⟨m, rfl⟩
  | resp st b =>
    rw [e] at hf
    replace hf : (400 ≤ st ∧ st < 600) ∨ ∃ m, b = .badJson m := hf
    dsimp only
    rcases hf with ⟨h4, h6⟩ | ⟨m, rfl⟩
    · obtain ⟨ms, hms⟩ := raiseForStatus_fail h4 h6
      rw [hms]
      exact ⟨ms, rfl⟩
    · cases f : raiseForStatus st with
      | none => exact ⟨m, rfl⟩
      | some ms => exact ⟨ms, rfl⟩

/-- C1, amended.  On every degraded outcome — transport exception, 4xx/5xx
status, or unparseable body — no client operation raises: Adapter A's
`fetch_note` returns `None`, its list operations return an empty sequence and
`api_delete` returns `false`; Adapter B's `fetch_note`, `fetch_notes` and
`api_delete` return an `{"error": message}` dictionary, but its
`fetch_categories` and `fetch_tags` return a plain empty sequence that drops
the error message.  A non-2xx status outside 4xx/5xx (e.g. 304) with a
parseable body is not treated as a failure: Adapter A's `fetch_note`
returns the parsed body as a present result. -/
theorem C1_client_failures :
    (∀ (v : FilterValves) (u slug endp : Str) (params : List (Str × Str)) (svc : Svc),
      (∀ url, failedGet (svc.get url)) →
      (∀ url, failedDel (svc.del url)) →
      Filter.fetch_note v svc slug = none
      ∧ Filter.fetch_notesE v svc params = .ok (.jarr [])
      ∧ Filter.fetch_categoriesE v svc = .ok (.jarr [])
      ∧ Filter.fetch_tagsE v svc = .ok (.jarr [])
      ∧ Filter.api_delete v svc endp = false
      ∧ (∃ m, Pipe.fetch_note u svc slug = .jobj [(chars "error", .jstr m)])
      ∧ (∃ m, Pipe.fetch_notes u svc params = .jobj [(chars "error", .jstr m)])
      ∧ Pipe.fetch_categoriesE u svc = .ok (.jarr [])
      ∧ Pipe.fetch_tagsE u svc = .ok (.jarr [])
      ∧ (∃ m, Pipe.api_delete u svc endp = .jobj [(chars "error", .jstr m)]))
    ∧ (∀ (v : FilterValves) (slug : Str) (st : Nat) (j : JVal) (svc : Svc),
      svc.get (v.mariposa_url ++ (chars "/api/notes/" ++ slug)) = .resp st (.parsed j) →
      ¬ (400 ≤ st ∧ st < 600) →
      Filter.fetch_note v svc slug = some j) := by
  constructor
  · intro v u slug endp params svc hg hd
    refine ⟨?_, ?_, ?_, ?_, ?_, ?_, ?_, ?_, ?_, ?_⟩
    · exact filter_api_get_fail (hg _)
    · unfold Filter.fetch_notesE
      rw [filter_api_get_fail (hg _)]
    · unfold Filter.fetch_categoriesE
      rw [filter_api_get_fail (hg _)]
    · unfold Filter.fetch_tagsE
      rw [filter_api_get_fail (hg _)]
    · unfold Filter.api_delete
      cases e : svc.del (v.mariposa_url ++ endp) with
      | exc m => rfl
      | resp st b =>
        have hd2 := hd (v.mariposa_url ++ endp)
        rw [e] at hd2
        replace hd2 : st ≠ 204 := hd2
        dsimp only
        exact decide_eq_false hd2
    · exact pipe_api_get_fail (hg _)
    · exact pipe_api_get_fail (hg _)
    · obtain ⟨m, hm⟩ := @pipe_api_get_fail u svc (chars "/api/categories") (hg _)
      unfold Pipe.fetch_categoriesE
      rw [hm]
      rfl
    · obtain ⟨m, hm⟩ := @pipe_api_get_fail u svc (chars "/api/tags") (hg _)
      unfold Pipe.fetch_tagsE
      rw [hm]
      rfl
    · unfold Pipe.api_delete
      cases e : svc.del (u ++ endp) with
      | exc m => exact ⟨m, rfl⟩
      | resp st b =>
        have hd2 := hd (u ++ endp)
        rw [e] at hd2
        replace hd2 : st ≠ 204 := hd2
        dsimp only
        rw [if_neg hd2]
        exact ⟨_, rfl⟩
  · intro v slug st j svc hsvc hst
    unfold Filter.fetch_note Filter.api_get
    rw [hsvc]
    dsimp only
    rw [raiseForStatus_pass hst]

/-- C1 counterexample: the claim as stated is false twice over.  On a
transport exception Adapter B's list-categories operation returns a bare
empty list — no error message string is carried; and on a 304 (non-2xx)
response with a parseable body Adapter A's `get_note` returns a present
note, not an absent result. -/
theorem C1_counterexample :
    Pipe.fetch_categoriesE (chars "u") svcDown = .ok (.jarr [])
    ∧ Filter.fetch_note filterDefaults svc304 (chars "note-1")
        = some (.jobj [(chars "title", .jstr (chars "T"))]) :=
  ⟨rfl, rfl⟩

/-- C1 witness: the amended theorem applied to the all-failing service and
to the 304-answering service. -/
theorem C1_witness :
    (Filter.fetch_note filterDefaults svcDown (chars "note-1") = none
      ∧ Filter.fetch_notesE filterDefaults svcDown [] = .ok (.jarr [])
      ∧ Filter.fetch_categoriesE filterDefaults svcDown = .ok (.jarr [])
      ∧ Filter.fetch_tagsE filterDefaults svcDown = .ok (.jarr [])
      ∧ Filter.api_delete filterDefaults svcDown (chars "/api/notes/note-2") = false
      ∧ (∃ m, Pipe.fetch_note (chars "u") svcDown (chars "note-1")
          = .jobj [(chars "error", .jstr m)])
      ∧ (∃ m, Pipe.fetch_notes (chars "u") svcDown []
          = .jobj [(chars "error", .jstr m)])
      ∧ Pipe.fetch_categoriesE (chars "u") svcDown = .ok (.jarr [])
      ∧ Pipe.fetch_tagsE (chars "u") svcDown = .ok (.jarr [])
      ∧ (∃ m, Pipe.api_delete (chars "u") svcDown (chars "/api/notes/note-2")
          = .jobj [(chars "error", .jstr m)]))
    ∧ Filter.fetch_note filterDefaults svc304 (chars "note-1")
        = some (.jobj [(chars "title", .jstr (chars "T"))]) :=
  ⟨C1_client_failures.1 filterDefaults (chars "u") (chars "note-1")
      (chars "/api/notes/note-2") [] svcDown (fun _ => trivial) (fun _ => trivial),
   C1_client_failures.2 filterDefaults (chars "note-1") 304
      (.jobj [(chars "title", .jstr (chars "T"))]) svc304 rfl (by decide)⟩

/- ### C2: no exception escapes the adapters -/

/-- C2, amended.  Adapter A's `inlet` completes without raising on every
chat-turn body (string or non-string content alike) whenever the service's
parsed JSON bodies are well-shaped; Adapter B's `pipe` additionally needs the
last message's content to be a string (or absent), because it calls
`.strip()` on it unguarded. -/
theorem C2_no_crash :
    (∀ (v : FilterValves) (svc : Svc) (body : ChatBody), GoodSvc svc →
      ∃ b2, Filter.inletE v svc body = .ok b2)
    ∧ (∀ (pv : PipeValves) (svc : Svc) (body : ChatBody), GoodSvc svc →
      lastContentIsStr body = true →
      ∃ s, Pipe.pipeE pv svc body = .ok (s, body)) :=
  ⟨fun v svc body h => inletE_ok h body,
   fun pv svc body h hs => pipeE_ok h hs⟩

/-- C2 counterexample: on a body whose last message content is not a string,
Adapter B's `pipe` raises `AttributeError` (from `.strip()`) instead of
completing — the claim as stated is false. -/
theorem C2_counterexample :
    Pipe.pipeE pipeDefaults svcDown (bodyNonStr 0) = .error .attrError := rfl

/-- C2 witness: the amended theorem applied to the all-failing (hence
well-shaped) service, with a non-string body for Adapter A and a string body
for Adapter B. -/
theorem C2_witness :
    (∃ b2, Filter.inletE filterDefaults svcDown (bodyNonStr 0) = .ok b2)
    ∧ (∃ s, Pipe.pipeE pipeDefaults svcDown (bodyStr "hi") = .ok (s, bodyStr "hi")) :=
  ⟨C2_no_crash.1 filterDefaults svcDown (bodyNonStr 0) (fun _ => trivial),
   C2_no_crash.2 pipeDefaults svcDown (bodyStr "hi") (fun _ => trivial) (by decide)⟩

/- ### C3: exact list-notes keywords, any casing and surrounding whitespace -/

/-- C3, confirmed.  Any message whose stripped, lower-cased text equals a
declared exact list-notes keyword of the respective adapter is classified as
the list-notes command under the adapters' own normalization
`strip ∘ lower ∘ strip`. -/
theorem C3_exact_keywords (raw k : Str) (hnorm : pyLower (pyStrip raw) = k) :
    (k = chars "notes" ∨ k = chars "/notes" →
      classifyFilter (pyStrip (pyLower (pyStrip raw))) = .listNotes)
    ∧ (k ∈ [chars "notes", chars "/notes", chars "list notes",
        chars "show notes", chars "my notes"] →
      classifyPipe (pyStrip (pyLower (pyStrip raw))) = .listNotes) := by
  have hn : pyStrip (pyLower (pyStrip raw)) = pyStrip k := by rw [hnorm]
  constructor
  · rintro (rfl | rfl) <;> rw [hn] <;> decide
  · intro hk
    fin_cases hk <;> rw [hn] <;> decide

/-- C3 witness: `" /Notes "` lands on the `"/notes"` keyword in both
adapters. -/
theorem C3_witness :
    classifyFilter (pyStrip (pyLower (pyStrip (chars " /Notes ")))) = .listNotes
    ∧ classifyPipe (pyStrip (pyLower (pyStrip (chars " /Notes ")))) = .listNotes :=
  ⟨(C3_exact_keywords (chars " /Notes ") (chars "/notes") (by decide)).1
      (Or.inr rfl),
   (C3_exact_keywords (chars " /Notes ") (chars "/notes") (by decide)).2
      (by decide)⟩

/- ### C4: the auto-fetch slug scan and its deduplication -/

theorem dedupFirstAux_mem (m : Str) :
    ∀ (xs : List Str) (seen : List Str),
      m ∈ dedupFirstAux seen xs ↔ m ∈ xs ∧ m ∉ seen := by
  intro xs
  induction xs with
  | nil => simp [dedupFirstAux]
  | cons x ys ih =>
    intro seen
    by_cases hx : x ∈ seen
    · simp only [dedupFirstAux, if_pos hx, ih seen, List.mem_cons]
      constructor
      · exact fun ⟨h1, h2⟩ => ⟨Or.inr h1, h2⟩
      · rintro ⟨(rfl | h1), h2⟩
        · exact absurd hx h2
        · exact ⟨h1, h2⟩
    · simp only [dedupFirstAux, if_neg hx, List.mem_cons, ih (x :: seen)]
      constructor
      · rintro (rfl | ⟨h1, h2⟩)
        · exact ⟨Or.inl rfl, hx⟩
        · exact ⟨Or.inr h1, fun hm => h2 (Or.inr hm)⟩
      · rintro ⟨(rfl | h1), h2⟩
        · exact Or.inl rfl
        · by_cases hmx : m = x
          · exact Or.inl hmx
          · exact Or.inr ⟨h1, by simp [hmx, h2]⟩

theorem dedupFirstAux_nodup :
    ∀ (xs : List Str) (seen : List Str), (dedupFirstAux seen xs).Nodup := by
  intro xs
  induction xs with
  | nil => intro seen; simp [dedupFirstAux]
  | cons x ys ih =>
    intro seen
    by_cases hx : x ∈ seen
    · simpa only [dedupFirstAux, if_pos hx] using ih seen
    · simp only [dedupFirstAux, if_neg hx, List.nodup_cons]
      refine ⟨fun hm => ?_, ih (x :: seen)⟩
      have := (dedupFirstAux_mem x ys (x :: seen)).mp hm
      exact this.2 (List.mem_cons_self x seen)

/-- C4, amended.  The auto-fetch scan deduplicates on the exact matched
text: the extracted list has no duplicate strings and contains exactly the
occurrences found by the case-insensitive `note-\d+` scan — so a slug
repeated in the same casing is extracted once, while occurrences of the same
slug in different casings remain separate entries. -/
theorem C4_scan_dedup (s : Str) :
    (autoSlugs s).Nodup ∧ ∀ m, m ∈ autoSlugs s ↔ m ∈ findAllNote s := by
  refine ⟨dedupFirstAux_nodup _ [], fun m => ?_⟩
  unfold autoSlugs
  rw [dedupFirstAux_mem]
  simp

/-- C4 counterexample: in `"note-5 NOTE-5"` the single slug `note-5` occurs
twice in different casings, and the scan extracts it twice (once per
casing), not exactly once as the claim states. -/
theorem C4_counterexample :
    (autoSlugs (chars "note-5 NOTE-5")).map pyLower
      = [chars "note-5", chars "note-5"] := by decide

/- ### C5: the auto-fetch rewrite and the original message -/

/-- C5, amended.  When no slash command matched and auto-fetch is enabled:
if at least one mentioned slug resolves, the last message's content becomes
the context block holding every resolved note's block followed by
`[User message:]` and the *whitespace-stripped* original text (not the
verbatim original); if nothing resolves, the body is returned unchanged. -/
theorem C5_autofetch (v : FilterValves) (svc : Svc) (body : ChatBody) (rawS : Str)
    (hne : body.messages ≠ [])
    (hraw : (body.messages.getLastD ⟨none, []⟩).content.getD (.pstr []) = .pstr rawS)
    (hcmd : v.enable_slash_commands = false ∨
      classifyFilter (pyStrip (pyLower (pyStrip rawS))) = .unrecognized)
    (haf : v.enable_auto_fetch = true)
    (parts : List Str)
    (hparts : Filter.gatherParts v svc (autoSlugs (pyStrip rawS)) = .ok parts) :
    (parts ≠ [] →
      Filter.inletE v svc body = .ok { body with
        messages := setLastContent body.messages
          (chars "[Context: Referenced notes]\n\n"
            ++ joinSep (chars "\n---\n") parts
            ++ chars "\n\n[User message:] " ++ pyStrip rawS) })
    ∧ (parts = [] → Filter.inletE v svc body = .ok body) := by
  have hafc : Filter.autoFetchContent v svc (pyStrip rawS)
      = .ok (if parts.isEmpty then none
          else some (chars "[Context: Referenced notes]\n\n"
            ++ joinSep (chars "\n---\n") parts
            ++ chars "\n\n[User message:] " ++ pyStrip rawS)) := by
    unfold Filter.autoFetchContent
    rw [if_pos haf]
    by_cases hsl : (autoSlugs (pyStrip rawS)).isEmpty = true
    · have hnil : autoSlugs (pyStrip rawS) = [] := by
        cases h : autoSlugs (pyStrip rawS)
        · rfl
        · rw [h] at hsl; simp at hsl
      rw [hnil] at hparts
      have hp0 : parts = [] := (Except.ok.inj hparts).symm
      rw [if_pos hsl, hp0]
      rfl
    · rw [if_neg hsl, hparts, ebind_ok]
      by_cases hpe : parts.isEmpty = true
      · simp [hpe]
      · simp only [Bool.not_eq_true] at hpe
        simp [hpe]
  have hic : Filter.inletContentE v svc (pyStrip rawS)
      = Filter.autoFetchContent v svc (pyStrip rawS) := by
    unfold Filter.inletContentE
    rcases hcmd with hsc | hun
    · rw [if_neg (by simp [hsc])]
    · by_cases hsc : v.enable_slash_commands = true
      · rw [if_pos hsc]
        dsimp only
        rw [hun]
      · rw [if_neg hsc]
  constructor
  · intro hne2
    have hpe : parts.isEmpty = false := by
      cases parts
      · exact absurd rfl hne2
      · rfl
    unfold Filter.inletE
    cases hm : body.messages with
    | nil => exact absurd hm hne
    | cons m ms =>
      rw [hm] at hraw
      dsimp only
      rw [hraw]
      dsimp only
      rw [hic, hafc, emap_ok, if_neg (by simp [hpe])]
  · intro hp0
    subst hp0
    unfold Filter.inletE
    cases hm : body.messages with
    | nil => rfl
    | cons m ms =>
      rw [hm] at hraw
      dsimp only
      rw [hraw]
      dsimp only
      rw [hic, hafc, emap_ok]
      rfl

/-- C5 counterexample: for the input `" see note-1 "` (with surrounding
whitespace) and a resolving note, the rewritten content ends with the
stripped text `"see note-1"`; the verbatim original `" see note-1 "` is not
preserved after the injected context. -/
theorem C5_counterexample :
    Filter.inletE filterDefaults svcNote1 (bodyStr " see note-1 ")
      = .ok ⟨[⟨some (.pstr c5Content), []⟩], []⟩
    ∧ (chars " see note-1 ").isSuffixOf c5Content = false
    ∧ (chars "see note-1").isSuffixOf c5Content = true :=
  ⟨rfl, by decide, by decide⟩

/-- C5 witness: the amended theorem applied to the input `"x note-1"` and
the service that resolves `note-1`. -/
theorem C5_witness :
    Filter.inletE filterDefaults svcNote1 (bodyStr "x note-1")
      = .ok { (bodyStr "x note-1") with
          messages := setLastContent (bodyStr "x note-1").messages
            (chars "[Context: Referenced notes]\n\n"
              ++ joinSep (chars "\n---\n") [c5Part]
              ++ chars "\n\n[User message:] " ++ pyStrip (chars "x note-1")) } :=
  (C5_autofetch filterDefaults svcNote1 (bodyStr "x note-1") (chars "x note-1")
      (by decide) rfl (Or.inr (by decide)) rfl [c5Part] rfl).1 (by decide)

/- ### C6: malformed read/delete arguments fall through -/

theorem cons_ne_of_head {c d : Char} {t s : Str} (h : c ≠ d) : c :: t ≠ d :: s := by
  intro he
  injection he with h1 _
  exact h h1

theorem not_mem_of_head (c : Char) (t : Str) (ks : List Str)
    (h : ∀ k ∈ ks, k.head? ≠ some c) : (c :: t) ∉ ks :=
  fun hm => h _ hm rfl

theorem slugExact_none {o : Option (Str × Str)}
    (h : ∀ m, o ≠ some (m, [])) : slugExact o = none := by
  rcases o with _ | ⟨m, r⟩
  · rfl
  · cases r with
    | nil => exact absurd rfl (h m)
    | cons a b => rfl

/-- C6, amended.  A (whitespace-trimmed, non-capturing-of-leading-space)
argument makes the read command fall through to "unrecognized" in Adapter A
exactly when it does not *begin* with `note-<digits>` (Adapter A's regex is
not end-anchored), while in Adapter B the read and delete commands fall
through whenever the argument is not *exactly* `note-<digits>` (its regexes
are end-anchored). -/
theorem C6_malformed_args (arg : Str)
    (hh : ∀ c, arg.head? = some c → isPySpace c = false) :
    (matchSlugAt true arg = none →
      classifyFilter (chars "read " ++ arg) = .unrecognized)
    ∧ ((∀ m, matchSlugAt false arg ≠ some (m, [])) →
      classifyPipe (chars "read " ++ arg) = .unrecognized
      ∧ classifyPipe (chars "delete " ++ arg) = .unrecognized) := by
  have hdw : List.dropWhile isPySpace arg = arg := by
    cases arg with
    | nil => rfl
    | cons c t =>
      rw [List.dropWhile_cons_of_neg]
      simp [hh c rfl]
  constructor
  · intro hciA
    have hmrF : matchReadFilter (chars "read " ++ arg)
        = Option.map (fun p => p.1)
            (matchSlugAt true (List.dropWhile isPySpace arg)) := rfl
    have h1 : matchReadFilter (chars "read " ++ arg) = none := by
      rw [hmrF, hdw, hciA]
      rfl
    have h2 : matchSearchFilter (chars "read " ++ arg) = none := rfl
    simp only [classifyFilter, h1, h2]
    rw [if_neg ?hc1, if_neg ?hc2]
    case hc1 =>
      rintro (he | he | he)
      · exact cons_ne_of_head (by decide) he
      · exact cons_ne_of_head (by decide) he
      · exact Bool.noConfusion (show (false : Bool) = true from he)
    case hc2 =>
      rintro (he | he)
      · exact cons_ne_of_head (by decide) he
      · exact cons_ne_of_head (by decide) he
  · intro hns
    constructor
    · have hmrP : matchReadPipe (chars "read " ++ arg)
          = slugExact (matchSlugAt false (List.dropWhile isPySpace arg)) := rfl
      have h1 : matchReadPipe (chars "read " ++ arg) = none := by
        rw [hmrP, hdw, slugExact_none hns]
      have h2 : matchSearchPipe (chars "read " ++ arg) = none := rfl
      have h3 : matchDeletePipe (chars "read " ++ arg) = none := rfl
      simp only [classifyPipe, h1, h2, h3]
      rw [show chars "read " ++ arg = 'r' :: (chars "ead " ++ arg) from rfl]
      rw [if_neg (not_mem_of_head _ _ _ (by decide)),
        if_neg (not_mem_of_head _ _ _ (by decide)),
        if_neg (not_mem_of_head _ _ _ (by decide)),
        if_neg (not_mem_of_head _ _ _ (by decide))]
    · have hmdP : matchDeletePipe (chars "delete " ++ arg)
          = slugExact (matchSlugAt false (List.dropWhile isPySpace arg)) := rfl
      have h1 : matchDeletePipe (chars "delete " ++ arg) = none := by
        rw [hmdP, hdw, slugExact_none hns]
      have h2 : matchReadPipe (chars "delete " ++ arg) = none := rfl
      have h3 : matchSearchPipe (chars "delete " ++ arg) = none := rfl
      simp only [classifyPipe, h1, h2, h3]
      rw [show chars "delete " ++ arg = 'd' :: (chars "elete " ++ arg) from rfl]
      rw [if_neg (not_mem_of_head _ _ _ (by decide)),
        if_neg (not_mem_of_head _ _ _ (by decide)),
        if_neg (not_mem_of_head _ _ _ (by decide)),
        if_neg (not_mem_of_head _ _ _ (by decide))]

/-- C6 counterexample: `"read note-5x"` has an argument that is not of the
form `note-<digits>`, yet Adapter A takes the read path with the captured
slug `note-5` — its regex is not end-anchored — instead of falling through
to "unrecognized" as the claim states. -/
theorem C6_counterexample :
    classifyFilter (pyStrip (pyLower (pyStrip (chars "read note-5x"))))
      = .readNote (chars "note-5") := by decide

/-- C6 witness: the argument `"foo"` falls through in both adapters, and so
does `"mynote"` for delete in Adapter B. -/
theorem C6_witness :
    classifyFilter (chars "read " ++ chars "foo") = .unrecognized
    ∧ classifyPipe (chars "read " ++ chars "mynote") = .unrecognized
    ∧ classifyPipe (chars "delete " ++ chars "mynote") = .unrecognized :=
  ⟨(C6_malformed_args (chars "foo") (by decide)).1 (by decide),
   ((C6_malformed_args (chars "mynote") (by decide)).2
      (fun m h => Option.noConfusion h)).1,
   ((C6_malformed_args (chars "mynote") (by decide)).2
      (fun m h => Option.noConfusion h)).2⟩

/- ### C7: unmatched, mention-free messages -/

/-- C7, confirmed.  On a message that matches no command in either adapter
and contains no `note-<digits>` mention, Adapter A returns the chat-turn
body unchanged and Adapter B returns the fallback message listing the
available commands (with the stripped user text echoed into it). -/
theorem C7_no_command (v : FilterValves) (pv : PipeValves) (svc : Svc)
    (body : ChatBody) (rawS : Str)
    (hne : body.messages ≠ [])
    (hraw : (body.messages.getLastD ⟨none, []⟩).content.getD (.pstr []) = .pstr rawS)
    (hunA : classifyFilter (pyStrip (pyLower (pyStrip rawS))) = .unrecognized)
    (hunB : classifyPipe (pyStrip (pyLower (pyStrip rawS))) = .unrecognized)
    (hment : findAllNote (pyStrip rawS) = []) :
    Filter.inletE v svc body = .ok body
    ∧ Pipe.pipeE pv svc body = .ok (Pipe.fallbackMsg (pyStrip rawS), body) := by
  have hafc0 : Filter.autoFetchContent v svc (pyStrip rawS) = .ok none := by
    unfold Filter.autoFetchContent
    have hsl : autoSlugs (pyStrip rawS) = [] := by
      unfold autoSlugs
      rw [hment]
      rfl
    by_cases haf : v.enable_auto_fetch = true
    · simp [haf, hsl]
    · simp only [Bool.not_eq_true] at haf
      simp [haf]
  have hic0 : Filter.inletContentE v svc (pyStrip rawS) = .ok none := by
    unfold Filter.inletContentE
    by_cases hsc : v.enable_slash_commands = true
    · rw [if_pos hsc]
      dsimp only
      rw [hunA]
      exact hafc0
    · rw [if_neg hsc]
      exact hafc0
  constructor
  · unfold Filter.inletE
    cases hm : body.messages with
    | nil => exact absurd hm hne
    | cons m ms =>
      rw [hm] at hraw
      dsimp only
      rw [hraw]
      dsimp only
      rw [hic0, emap_ok]
  · unfold Pipe.pipeE Pipe.pipeCore
    cases hm : body.messages with
    | nil => exact absurd hm hne
    | cons m ms =>
      rw [hm] at hraw
      dsimp only
      rw [hraw]
      dsimp only
      rw [hunB]
      rfl

/-- C7 witness: the scenario input `"foo bar"` against an unreachable
service. -/
theorem C7_witness :
    Filter.inletE filterDefaults svcDown (bodyStr "foo bar") = .ok (bodyStr "foo bar")
    ∧ Pipe.pipeE pipeDefaults svcDown (bodyStr "foo bar")
        = .ok (Pipe.fallbackMsg (pyStrip (chars "foo bar")), bodyStr "foo bar") :=
  C7_no_command filterDefaults pipeDefaults svcDown (bodyStr "foo bar")
    (chars "foo bar") (by decide) rfl (by decide) (by decide) (by decide)

/- ### C8: no model dispatch, independence from passthrough_model -/

/-- C8, amended.  Adapter B's outcome — response string or raised exception —
is identical for any two values of the `passthrough_model` configuration
field on the same input and service; and whenever the last message content
is a string (or absent) and the service bodies are well-shaped, `pipe`
returns a complete string (it never dispatches to a model: every code path
ends in a rendered or fallback string). -/
theorem C8_passthrough_unused :
    (∀ (u p1 p2 : Str) (svc : Svc) (body : ChatBody),
      Pipe.pipeE ⟨u, p1⟩ svc body = Pipe.pipeE ⟨u, p2⟩ svc body)
    ∧ (∀ (pv : PipeValves) (svc : Svc) (body : ChatBody), GoodSvc svc →
      lastContentIsStr body = true →
      ∃ s, Pipe.pipeE pv svc body = .ok (s, body)) :=
  ⟨fun _ _ _ _ _ => rfl,
   fun _ _ _ h hs => pipeE_ok h hs⟩

/-- C8 counterexample: `pipe` does not return a string for *every* input
body — on a non-string last content it raises `AttributeError`. -/
theorem C8_counterexample :
    Pipe.pipeE pipeDefaults svc304 (bodyNonStr 1) = .error .attrError := rfl

/-- C8 witness: two different passthrough_model values give the identical
outcome, and a string body gets a complete string back. -/
theorem C8_witness :
    Pipe.pipeE ⟨chars "u", chars "model-a"⟩ svcDown (bodyStr "hello")
      = Pipe.pipeE ⟨chars "u", chars "model-b"⟩ svcDown (bodyStr "hello")
    ∧ ∃ s, Pipe.pipeE pipeDefaults svcDown (bodyStr "hello")
        = .ok (s, bodyStr "hello") :=
  ⟨C8_passthrough_unused.1 (chars "u") (chars "model-a") (chars "model-b")
      svcDown (bodyStr "hello"),
   C8_passthrough_unused.2 pipeDefaults svcDown (bodyStr "hello")
      (fun _ => trivial) (by decide)⟩

/- ### C9: placeholders for missing note fields -/

theorem containsStr_self (s : Str) : containsStr s s := ⟨[], [], by simp⟩

theorem containsStr_left {a : Str} (b : Str) {need : Str}
    (h : containsStr a need) : containsStr (a ++ b) need := by
  obtain ⟨l, r, rfl⟩ := h
  exact ⟨l, r ++ b, by simp⟩

theorem containsStr_right (a : Str) {b need : Str}
    (h : containsStr b need) : containsStr (a ++ b) need := by
  obtain ⟨l, r, rfl⟩ := h
  exact ⟨a ++ l, r, by simp⟩

theorem render_note_md_form (kvs : List (Str × JVal)) (xs : List JVal)
    (e : (jLookup kvs (chars "tags")).getD (.jarr []) = .jarr xs) :
    Filter.render_note_md (.jobj kvs) false = .ok (mdNoteForm kvs (mdTagsOf xs)) := by
  cases xs with
  | nil =>
    simp only [Filter.render_note_md, jGetD, ebind_ok]
    rw [e]
    rfl
  | cons x ys =>
    simp only [Filter.render_note_md, jGetD, ebind_ok]
    rw [e]
    rfl

theorem render_note_card_form (kvs : List (Str × JVal)) (xs : List JVal)
    (e : (jLookup kvs (chars "tags")).getD (.jarr []) = .jarr xs) :
    Pipe.render_note_card (.jobj kvs) = .ok (htmlNoteForm kvs (tagsHtmlOf xs)) := by
  cases xs with
  | nil =>
    simp only [Pipe.render_note_card, jGetD, ebind_ok]
    rw [e]
    rfl
  | cons x ys =>
    simp only [Pipe.render_note_card, jGetD, ebind_ok]
    rw [e]
    rfl

/-- C9, confirmed.  On a note object whose `tags` field (when present) is a
string array, each missing field renders with its documented placeholder in
both single-note renderers: "Untitled" for `title`, "uncategorized" for
`category`, "_no tags_" (Markdown) / "no tags" (HTML) for `tags`, and
"_No content_" (Markdown) / "(empty)" (HTML) for `content` — the markup for
those fields is never empty. -/
theorem C9_placeholders (kvs : List (Str × JVal))
    (htags : match jLookup kvs (chars "tags") with
      | none => True
      | some t => isStrArr t = true) :
    (jLookup kvs (chars "title") = none →
      (∃ md, Filter.render_note_md (.jobj kvs) false = .ok md
        ∧ containsStr md (chars "Untitled"))
      ∧ (∃ html, Pipe.render_note_card (.jobj kvs) = .ok html
        ∧ containsStr html (chars "Untitled")))
    ∧ (jLookup kvs (chars "category") = none →
      (∃ md, Filter.render_note_md (.jobj kvs) false = .ok md
        ∧ containsStr md (chars "uncategorized"))
      ∧ (∃ html, Pipe.render_note_card (.jobj kvs) = .ok html
        ∧ containsStr html (chars "uncategorized")))
    ∧ (jLookup kvs (chars "tags") = none →
      (∃ md, Filter.render_note_md (.jobj kvs) false = .ok md
        ∧ containsStr md (chars "_no tags_"))
      ∧ (∃ html, Pipe.render_note_card (.jobj kvs) = .ok html
        ∧ containsStr html (chars "no tags")))
    ∧ (jLookup kvs (chars "content") = none →
      (∃ md, Filter.render_note_md (.jobj kvs) false = .ok md
        ∧ containsStr md (chars "_No content_"))
      ∧ (∃ html, Pipe.render_note_card (.jobj kvs) = .ok html
        ∧ containsStr html (chars "(empty)"))) := by
  have htg : isStrArr ((jLookup kvs (chars "tags")).getD (.jarr [])) = true := by
    rcases e : jLookup kvs (chars "tags") with _ | t
    · rfl
    · rw [e] at htags
      simpa using htags
  obtain ⟨xs, e, -⟩ := isStrArr_elim htg
  have hmd := render_note_md_form kvs xs e
  have hcard := render_note_card_form kvs xs e
  refine ⟨fun hf => ⟨⟨_, hmd, ?_⟩, ⟨_, hcard, ?_⟩⟩,
    fun hf => ⟨⟨_, hmd, ?_⟩, ⟨_, hcard, ?_⟩⟩,
    fun hf => ?_,
    fun hf => ⟨⟨_, hmd, ?_⟩, ⟨_, hcard, ?_⟩⟩⟩
  · unfold mdNoteForm
    rw [hf]
    repeat first
    | exact containsStr_right _ (containsStr_self _)
    | apply containsStr_left
  · unfold htmlNoteForm
    rw [hf]
    repeat first
    | exact containsStr_right _ (containsStr_self _)
    | apply containsStr_left
  · unfold mdNoteForm
    rw [hf]
    repeat first
    | exact containsStr_right _ (containsStr_self _)
    | apply containsStr_left
  · unfold htmlNoteForm
    rw [hf]
    repeat first
    | exact containsStr_right _ (containsStr_self _)
    | apply containsStr_left
  · -- tags missing: the tags value is the default empty array
    have hxs : xs = [] := by
      rw [hf] at e
      simpa using e.symm
    subst hxs
    refine ⟨⟨_, hmd, ?_⟩, ⟨_, hcard, ?_⟩⟩
    · unfold mdNoteForm
      repeat first
      | exact containsStr_right _ (containsStr_self _)
      | apply containsStr_left
    · unfold htmlNoteForm
      repeat first
      | exact containsStr_right _ (containsStr_self _)
      | exact containsStr_right _
          (containsStr_left _ (containsStr_right _ (containsStr_self _)))
      | apply containsStr_left
  · unfold mdNoteForm
    rw [hf]
    repeat first
    | exact containsStr_right _ (containsStr_self _)
    | apply containsStr_left
  · unfold htmlNoteForm
    rw [hf]
    repeat first
    | exact containsStr_right _ (containsStr_self _)
    | apply containsStr_left

/-- C9 witness: the empty note object renders all four placeholders in both
renderers. -/
theorem C9_witness :
    ((∃ md, Filter.render_note_md (.jobj []) false = .ok md
        ∧ containsStr md (chars "Untitled"))
      ∧ (∃ html, Pipe.render_note_card (.jobj []) = .ok html
        ∧ containsStr html (chars "Untitled")))
    ∧ ((∃ md, Filter.render_note_md (.jobj []) false = .ok md
        ∧ containsStr md (chars "uncategorized"))
      ∧ (∃ html, Pipe.render_note_card (.jobj []) = .ok html
        ∧ containsStr html (chars "uncategorized")))
    ∧ ((∃ md, Filter.render_note_md (.jobj []) false = .ok md
        ∧ containsStr md (chars "_no tags_"))
      ∧ (∃ html, Pipe.render_note_card (.jobj []) = .ok html
        ∧ containsStr html (chars "no tags")))
    ∧ ((∃ md, Filter.render_note_md (.jobj []) false = .ok md
        ∧ containsStr md (chars "_No content_"))
      ∧ (∃ html, Pipe.render_note_card (.jobj []) = .ok html
        ∧ containsStr html (chars "(empty)"))) := by
  have h := C9_placeholders [] trivial
  exact ⟨h.1 rfl, h.2.1 rfl, h.2.2.1 rfl, h.2.2.2 rfl⟩

/- ### C10: only the last message's content is touched -/

theorem setLastContent_facts (m : Msg) (ms : List Msg) (s : Str) :
    (setLastContent (m :: ms) s).length = (m :: ms).length
    ∧ (setLastContent (m :: ms) s).dropLast = (m :: ms).dropLast
    ∧ (setLastContent (m :: ms) s).getLast?
        = some { (m :: ms).getLastD ⟨none, []⟩ with content := some (.pstr s) } := by
  unfold setLastContent
  refine ⟨?_, ?_, ?_⟩
  · simp only [List.length_append, List.length_dropLast, List.length_cons,
      List.length_nil]
    omega
  · simp
  · simp

theorem frame_of_eq {body : ChatBody} {ms : List Msg} (hm : body.messages = ms) :
    body.extra = body.extra
    ∧ body.messages.length = ms.length
    ∧ body.messages.dropLast = ms.dropLast
    ∧ ∀ m2, body.messages.getLast? = some m2 →
        ∃ m1, ms.getLast? = some m1 ∧ m2.extra = m1.extra := by
  subst hm
  exact ⟨rfl, rfl, rfl, fun m2 hm2 => ⟨m2, hm2, rfl⟩⟩

theorem frame_refl (b : ChatBody) :
    b.extra = b.extra
    ∧ b.messages.length = b.messages.length
    ∧ b.messages.dropLast = b.messages.dropLast
    ∧ ∀ m2, b.messages.getLast? = some m2 →
        ∃ m1, b.messages.getLast? = some m1 ∧ m2.extra = m1.extra :=
  ⟨rfl, rfl, rfl, fun m2 hm2 => ⟨m2, hm2, rfl⟩⟩

/-- C10, confirmed.  Adapter A's `inlet` changes at most the last message's
`content`: the body's other fields, every earlier message, and the last
message's other fields are identical before and after; Adapter B's `pipe`
returns the body exactly as it received it. -/
theorem C10_frame :
    (∀ (v : FilterValves) (svc : Svc) (body b2 : ChatBody),
      Filter.inletE v svc body = .ok b2 →
      b2.extra = body.extra
      ∧ b2.messages.length = body.messages.length
      ∧ b2.messages.dropLast = body.messages.dropLast
      ∧ ∀ m2, b2.messages.getLast? = some m2 →
          ∃ m1, body.messages.getLast? = some m1 ∧ m2.extra = m1.extra)
    ∧ (∀ (pv : PipeValves) (svc : Svc) (body : ChatBody) (s : Str) (b2 : ChatBody),
      Pipe.pipeE pv svc body = .ok (s, b2) → b2 = body) := by
  constructor
  · intro v svc body b2 h
    unfold Filter.inletE at h
    cases hm : body.messages with
    | nil =>
      rw [hm] at h
      replace h : Except.ok body = Except.ok b2 := h
      obtain rfl := Except.ok.inj h
      exact frame_of_eq hm
    | cons m ms =>
      rw [hm] at h
      dsimp only at h
      cases hc : ((m :: ms).getLastD ⟨none, []⟩).content.getD (.pstr []) with
      | pother t =>
        rw [hc] at h
        replace h : Except.ok body = Except.ok b2 := h
        obtain rfl := Except.ok.inj h
        exact frame_of_eq hm
      | pstr rawS =>
        rw [hc] at h
        dsimp only at h
        obtain ⟨os, hos, hF⟩ := map_ok_elim h
        cases os with
        | none =>
          obtain rfl : body = b2 := hF
          exact frame_of_eq hm
        | some s =>
          replace hF : ({ body with
            messages := setLastContent (m :: ms) s } : ChatBody) = b2 := hF
          obtain ⟨hlen, hdrop, hlast⟩ := setLastContent_facts m ms s
          subst hF
          refine ⟨rfl, hlen, hdrop, fun m2 hm2 => ?_⟩
          replace hm2 : (setLastContent (m :: ms) s).getLast? = some m2 := hm2
          rw [hlast] at hm2
          obtain rfl := Option.some.inj hm2
          refine ⟨(m :: ms).getLastD ⟨none, []⟩, ?_, rfl⟩
          rw [List.getLastD_eq_getLast?]
          cases hgl : (m :: ms).getLast? with
          | none => simp at hgl
          | some x => rfl
  · intro pv svc body s b2 h
    unfold Pipe.pipeE at h
    obtain ⟨a, -, hF⟩ := map_ok_elim h
    injection hF with h1 h2
    exact h2.symm

/-- C10 witness: the frame property evaluated on a two-message body with
extra fields, against an unreachable service (the unrecognized-input path,
on which Adapter A returns the body unchanged). -/
theorem C10_witness :
    (bodyFrame.extra = bodyFrame.extra
      ∧ bodyFrame.messages.length = bodyFrame.messages.length
      ∧ bodyFrame.messages.dropLast = bodyFrame.messages.dropLast
      ∧ ∀ m2, bodyFrame.messages.getLast? = some m2 →
          ∃ m1, bodyFrame.messages.getLast? = some m1 ∧ m2.extra = m1.extra)
    ∧ bodyFrame = bodyFrame :=
  ⟨C10_frame.1 filterDefaults svcDown bodyFrame bodyFrame rfl,
   C10_frame.2 pipeDefaults svcDown bodyFrame
      (Pipe.fallbackMsg (chars "hello")) bodyFrame rfl⟩
